import Mathlib

/-!
Verification development for the Husqvarna Automower API client
(`src/Husqvarna.py`).  The Python module is shallowly embedded: HTTP
responses and network failures are explicit values supplied by an
environment function (one outcome per attempt index), the mutable
`ApiState` dataclass is threaded explicitly, wall-clock instants are
integers (seconds; the dataclass default `datetime(2000, 1, 1)` is the
origin 0), and JSON documents are an inductive `Json` type.  Python
exception texts interpolated into messages (which depend on the CPython
runtime) are modelled by the exception class name; no claim below
depends on them.
-/

/-- JSON values as produced by `response.json()`.  Numbers are modelled as
integers (all numeric fields the client reads are integral). -/
inductive Json where
  | null : Json
  | bool (b : Bool) : Json
  | num (n : Int) : Json
  | str (s : String) : Json
  | arr (xs : List Json) : Json
  | obj (fields : List (String × Json)) : Json

mutual

/-- Structural equality on JSON values, mirroring Python `==`. -/
def Json.beq : Json → Json → Bool
  | .null, .null => true
  | .bool a, .bool b => a == b
  | .num a, .num b => a == b
  | .str a, .str b => a == b
  | .arr a, .arr b => Json.beqSeq a b
  | .obj a, .obj b => Json.beqMap a b
  | _, _ => false

def Json.beqSeq : List Json → List Json → Bool
  | [], [] => true
  | a :: as, b :: bs => Json.beq a b && Json.beqSeq as bs
  | _, _ => false

def Json.beqMap : List (String × Json) → List (String × Json) → Bool
  | [], [] => true
  | (ka, va) :: as, (kb, vb) :: bs => ka == kb && Json.beq va vb && Json.beqMap as bs
  | _, _ => false

end

instance : BEq Json := ⟨Json.beq⟩

/-- Python truthiness of a JSON value (`if response:` style tests). -/
def truthy : Json → Bool
  | .null => false
  | .bool b => b
  | .num n => n != 0
  | .str s => s != ""
  | .arr xs => !xs.isEmpty
  | .obj fs => !fs.isEmpty

/-- Dictionary lookup, `d[k]` / `k in d` on a JSON object; `none` on
non-objects or missing keys. -/
def jsonGet : Json → String → Option Json
  | .obj fs, k => fs.lookup k
  | _, _ => none

/-- Python `d.get(k, default)` on a JSON object. -/
def dictGetD (j : Json) (k : String) (d : Json) : Json :=
  (jsonGet j k).getD d

/-- A single-quote character, used by the Python `repr` of strings. -/
def singleQuote : String :=
  String.mk [Char.ofNat 39]

mutual

/-- Python `repr` of a JSON value (appears when containers are interpolated
into f-strings).  String escaping inside `repr` is not modelled; no claim
interpolates a container. -/
def pyRepr : Json → String
  | .null => "None"
  | .bool true => "True"
  | .bool false => "False"
  | .num n => toString n
  | .str s => singleQuote ++ s ++ singleQuote
  | .arr xs => "[" ++ pyReprSeq xs ++ "]"
  | .obj fs => "\x7b" ++ pyReprMap fs ++ "\x7d"

def pyReprSeq : List Json → String
  | [] => ""
  | [x] => pyRepr x
  | x :: y :: rest => pyRepr x ++ ", " ++ pyReprSeq (y :: rest)

def pyReprMap : List (String × Json) → String
  | [] => ""
  | [(k, v)] => singleQuote ++ k ++ singleQuote ++ ": " ++ pyRepr v
  | (k, v) :: y :: rest =>
      singleQuote ++ k ++ singleQuote ++ ": " ++ pyRepr v ++ ", " ++ pyReprMap (y :: rest)

end

/-- Python `str` of a JSON value, as interpolated by an f-string. -/
def pyStr : Json → String
  | .str s => s
  | j => pyRepr j

/-- Whether `pat` occurs at the start of `s` (on character lists). -/
def charsStartWith : List Char → List Char → Bool
  | _, [] => true
  | [], _ :: _ => false
  | a :: as, b :: bs => a == b && charsStartWith as bs

/-- Whether `pat` occurs anywhere inside `s` (on character lists). -/
def charsContain : List Char → List Char → Bool
  | [], pat => pat.isEmpty
  | a :: as, pat => charsStartWith (a :: as) pat || charsContain as pat

/-- Python substring membership `pat in s` for strings. -/
def containsSubstr (s pat : String) : Bool :=
  charsContain s.data pat.data

/-- Python `mower_name or "Unknown"` as in the message prefix (note `or`
also replaces the empty string, which is falsy). -/
def name_or_unknown : Option String → String
  | none => "Unknown"
  | some s => if s = "" then "Unknown" else s

/-- One HTTP response: status code, the JSON parse of the body when the body
is valid JSON (`none` when `response.json()` would raise a decode error),
and the raw body text (`response.text`). -/
structure HttpResponse where
  status_code : Nat
  bodyJson : Option Json
  text : String

/-- Outcome of one network attempt: either a response, or a raised
`httpx.TimeoutException` / `ConnectError` / `RequestError` with its text. -/
inductive AttemptResult where
  | resp (r : HttpResponse)
  | netErr (msg : String)

/-- The `ApiState` dataclass.  Instants are seconds with origin
`datetime(2000, 1, 1)`, the dataclass default (hence default 0). -/
structure ApiState where
  access_token : Option Json := none
  access_token_expiration : Int := 0
  timestamp_last_update_mower_list : Int := 0
  error : Option String := none
  api_limit_reached : Bool := false
  authenticated : Bool := false

/-- One entry of `self.mowers`: the dict built by `_get_mowers`
(`id`, `name`) and the `state` key later added by
`_get_mower_detailed_info`.  The remaining detailed-info keys
(`battery_pct`, `activity`, `location`, `cutting_height`, `error_state`)
are read by no operation modelled here and are omitted. -/
structure Mower where
  id : Option Json := none
  name : Option Json := none
  state : Option Json := none

/-- A `Husqvarna` client instance: the mower list plus the `ApiState`. -/
structure ClientState where
  mowers : List Mower := []
  state : ApiState := {}

/-- `ApiConfig.RETRY_DELAY`. -/
def RETRY_DELAY : Nat := 2

/-- `ApiConfig.TIMEOUT` (per-attempt connect/read timeout; enforcing it is a
property of the network layer, not of the modelled control flow). -/
def TIMEOUT : Nat := 5

/-- `ApiConfig.TOKEN_REFRESH_MARGIN`. -/
def TOKEN_REFRESH_MARGIN : Int := 600

/-- `ApiEndpoints.TOKEN_REQUEST`. -/
def TOKEN_REQUEST : String :=
  "https://api.authentication.husqvarnagroup.dev/v1/oauth2/token"

/-- `ApiEndpoints.BASE_API`. -/
def BASE_API : String := "https://api.amc.husqvarna.dev/v1/"

/-- `ApiEndpoints.MOWERS`. -/
def MOWERS : String := BASE_API ++ "mowers"

namespace ErrorCodes

/-- The `ErrorCodes.CODES` dictionary, in source order (all keys are
distinct, so first-match lookup agrees with the Python dict). -/
def CODES : List (Int × String) := [
  (0, "Unexpected error"),
  (1, "Outside working area"),
  (2, "No loop signal"),
  (3, "Wrong loop signal"),
  (4, "Loop sensor problem, front"),
  (5, "Loop sensor problem, rear"),
  (6, "Loop sensor problem, left"),
  (7, "Loop sensor problem, right"),
  (8, "Wrong PIN code"),
  (9, "Trapped"),
  (10, "Upside down"),
  (11, "Low battery"),
  (12, "Empty battery"),
  (13, "No drive"),
  (14, "Mower lifted"),
  (15, "Lifted"),
  (16, "Stuck in charging station"),
  (17, "Charging station blocked"),
  (18, "Collision sensor problem, rear"),
  (19, "Collision sensor problem, front"),
  (20, "Wheel motor blocked, right"),
  (21, "Wheel motor blocked, left"),
  (22, "Wheel drive problem, right"),
  (23, "Wheel drive problem, left"),
  (24, "Cutting system blocked"),
  (25, "Cutting system blocked"),
  (26, "Invalid sub-device combination"),
  (27, "Settings restored"),
  (28, "Memory circuit problem"),
  (29, "Slope too steep"),
  (30, "Charging system problem"),
  (31, "STOP button problem"),
  (32, "Tilt sensor problem"),
  (33, "Mower tilted"),
  (34, "Cutting stopped - slope too steep"),
  (35, "Wheel motor overloaded, right"),
  (36, "Wheel motor overloaded, left"),
  (37, "Charging current too high"),
  (38, "Electronic problem"),
  (39, "Cutting motor problem"),
  (40, "Limited cutting height range"),
  (41, "Unexpected cutting height adj"),
  (42, "Limited cutting height range"),
  (43, "Cutting height problem, drive"),
  (44, "Cutting height problem, curr"),
  (45, "Cutting height problem, dir"),
  (46, "Cutting height blocked"),
  (47, "Cutting height problem"),
  (48, "No response from charger"),
  (49, "Ultrasonic problem"),
  (50, "Guide 1 not found"),
  (51, "Guide 2 not found"),
  (52, "Guide 3 not found"),
  (53, "GPS navigation problem"),
  (54, "Weak GPS signal"),
  (55, "Difficult finding home"),
  (56, "Guide calibration accomplished"),
  (57, "Guide calibration failed"),
  (58, "Temporary battery problem"),
  (59, "Temporary battery problem"),
  (60, "Temporary battery problem"),
  (61, "Temporary battery problem"),
  (62, "Temporary battery problem"),
  (63, "Temporary battery problem"),
  (64, "Temporary battery problem"),
  (65, "Temporary battery problem"),
  (66, "Battery problem"),
  (67, "Battery problem"),
  (68, "Temporary battery problem"),
  (69, "Alarm! Mower switched off"),
  (70, "Alarm! Mower stopped"),
  (71, "Alarm! Mower lifted"),
  (72, "Alarm! Mower tilted"),
  (73, "Alarm! Mower in motion"),
  (74, "Alarm! Outside geofence"),
  (75, "Connection changed"),
  (76, "Connection NOT changed"),
  (77, "Com board not available"),
  (78, "Slipped - Mower has Slipped.Situation not solved with moving pattern"),
  (79, "Invalid battery combination - Invalid combination of different battery types."),
  (80, "Cutting system imbalance  Warning"),
  (81, "Safety function faulty"),
  (82, "Wheel motor blocked, rear right"),
  (83, "Wheel motor blocked, rear left"),
  (84, "Wheel drive problem, rear right"),
  (85, "Wheel drive problem, rear left"),
  (86, "Wheel motor overloaded, rear right"),
  (87, "Wheel motor overloaded, rear left"),
  (88, "Angular sensor problem"),
  (89, "Invalid system configuration"),
  (90, "No power in charging station"),
  (91, "Switch cord problem"),
  (92, "Work area not valid"),
  (93, "No accurate position from satellites"),
  (94, "Reference station communication problem"),
  (95, "Folding sensor activated"),
  (96, "Right brush motor overloaded"),
  (97, "Left brush motor overloaded"),
  (98, "Ultrasonic Sensor 1 defect"),
  (99, "Ultrasonic Sensor 2 defect"),
  (100, "Ultrasonic Sensor 3 defect"),
  (101, "Ultrasonic Sensor 4 defect"),
  (102, "Cutting drive motor 1 defect"),
  (103, "Cutting drive motor 2 defect"),
  (104, "Cutting drive motor 3 defect"),
  (105, "Lift Sensor defect"),
  (106, "Collision sensor defect"),
  (107, "Docking sensor defect"),
  (108, "Folding cutting deck sensor defect"),
  (109, "Loop sensor defect"),
  (110, "Collision sensor error"),
  (111, "No confirmed position"),
  (112, "Cutting system major imbalance"),
  (113, "Complex working area"),
  (114, "Too high discharge current"),
  (115, "Too high internal current"),
  (116, "High charging power loss"),
  (117, "High internal power loss"),
  (118, "Charging system problem"),
  (119, "Zone generator problem"),
  (120, "Internal voltage error"),
  (121, "High internal temerature"),
  (122, "CAN error"),
  (123, "Destination not reachable"),
  (124, "Destination blocked"),
  (125, "Battery needs replacement"),
  (126, "Battery near end of life"),
  (127, "Battery problem"),
  (701, "Connectivity problem"),
  (702, "Connectivity settings restored"),
  (703, "Connectivity problem"),
  (704, "Connectivity problem"),
  (705, "Connectivity problem"),
  (706, "Poor signal quality"),
  (707, "SIM card requires PIN"),
  (708, "SIM card locked"),
  (709, "SIM card not found"),
  (710, "SIM card locked"),
  (711, "SIM card locked"),
  (712, "SIM card locked"),
  (713, "Geofence problem"),
  (714, "Geofence problem"),
  (715, "Connectivity problem"),
  (716, "Connectivity problem"),
  (717, "SMS could not be sent"),
  (724, "Communication circuit board SW must be updated")]

/-- `ErrorCodes.get_description`: `None` passes through, otherwise
`CODES.get(code, f"Unknown error code: {code}")`. -/
def get_description : Option Int → Option String
  | none => none
  | some code =>
    match CODES.lookup code with
    | some d => some d
    | none => some ("Unknown error code: " ++ toString code)

end ErrorCodes

/-- The `(mower_name or "Unknown") - status_code` prefix shared by every
message produced by `_analyze_http_error`. -/
def msg_head (r : HttpResponse) (mower_name : Option String) : String :=
  "(" ++ name_or_unknown mower_name ++ " - " ++ toString r.status_code ++ ") "

/-- Message of the `except Exception` branch of `_analyze_http_error`.  The
interpolated Python exception text is runtime-dependent and modelled by
the exception class name. -/
def analysis_exception_tail (url text exc : String) : String :=
  "Error analyzing API response (url: " ++ url ++ ", response: " ++ text ++ "): " ++ exc

/-- Body-dependent part of the `_analyze_http_error` message (everything
after `msg_head`), following the source branch by branch.  Non-JSON body:
decode-failure message.  JSON object: an `errors` key that is a truthy list
with a dict first entry yields the title/detail of that entry (with `.get`
defaults); a falsy `errors` value yields the defaults (`error_detail = {}`);
a truthy non-list `errors` or non-dict first entry raises inside the `try`
and lands in the generic-analysis-failure branch; otherwise a `message` key
is used; otherwise the uncaptured-error message.  Non-object JSON: Python
`in` is element / substring membership, and a hit raises on indexing. -/
def analyze_http_error_tail (r : HttpResponse) (url : String) : String :=
  match r.bodyJson with
  | none =>
    "Uncaptured error returned by Husqvarna API (url: " ++ url ++ ", response: " ++
      r.text ++ ") - JSON decode error"
  | some info =>
    match info with
    | .obj _ =>
      match jsonGet info "errors" with
      | some v =>
        if truthy v then
          match v with
          | .arr (first :: _) =>
            match first with
            | .obj _ =>
              pyStr (dictGetD first "title" (.str "Unknown Error")) ++ ": " ++
                pyStr (dictGetD first "detail" (.str "No detail")) ++ " (url: " ++ url ++ ")"
            | _ => analysis_exception_tail url r.text "AttributeError"
          | _ => analysis_exception_tail url r.text "TypeError"
        else
          "Unknown Error: No detail (url: " ++ url ++ ")"
      | none =>
        match jsonGet info "message" with
        | some v => pyStr v ++ " (url: " ++ url ++ ")"
        | none => "Uncaptured error returned by Husqvarna API (url: " ++ url ++ ")"
    | .arr xs =>
      if xs.contains (Json.str "errors") then analysis_exception_tail url r.text "TypeError"
      else if xs.contains (Json.str "message") then analysis_exception_tail url r.text "TypeError"
      else "Uncaptured error returned by Husqvarna API (url: " ++ url ++ ")"
    | .str s =>
      if containsSubstr s "errors" then analysis_exception_tail url r.text "TypeError"
      else if containsSubstr s "message" then analysis_exception_tail url r.text "TypeError"
      else "Uncaptured error returned by Husqvarna API (url: " ++ url ++ ")"
    | _ => analysis_exception_tail url r.text "TypeError"

/-- `_analyze_http_error`: returns the formatted message together with the
new value of `self.state.api_limit_reached`, which the source sets to
`response.status_code == 429` before any parsing. -/
def analyze_http_error (r : HttpResponse) (url : String) (mower_name : Option String) :
    String × Bool :=
  (msg_head r mower_name ++ analyze_http_error_tail r url, r.status_code == 429)

/-- Result of the `while retry_counter < 3` loop of `_http_with_retry`:
the `execution_status` and `response` locals, the state after the loop, the
argument of each `time.sleep` performed (in order), and the number of
attempts made. -/
structure LoopOut where
  execution_status : Bool
  response : Option HttpResponse
  st : ApiState
  delays : List Nat
  attempts : Nat

/-- The retry loop of `_http_with_retry`.  `env k` is the outcome of the
attempt made while `retry_counter = k` (every iteration performs one attempt
and every non-breaking iteration increments the counter, so the counter
indexes attempts).  `fuel` is an upper bound on remaining iterations; calls
keep `fuel + k = 3`, so the `fuel = 0` base case is never reached from the
initial call `http_loop env url mn 3 0 …`.  The `time.sleep` at the bottom
of the loop body runs exactly on the non-breaking paths, after the counter
increment, with argument `RETRY_DELAY * (retry_counter + 1)`. -/
def http_loop (env : Nat → AttemptResult) (url : String) (mower_name : Option String) :
    Nat → Nat → ApiState → Option HttpResponse → List Nat → LoopOut
  | 0, k, st, prev, ds => ⟨false, prev, st, ds, k⟩
  | fuel + 1, k, st, prev, ds =>
    match env k with
    | .resp r =>
      if 200 ≤ r.status_code ∧ r.status_code < 300 then
        ⟨true, some r, { st with error := none, api_limit_reached := false }, ds, k + 1⟩
      else if r.status_code = 403 then
        if k + 1 ≥ 3 then
          ⟨false, some r,
            { st with error := some (analyze_http_error r url mower_name).1,
                      api_limit_reached := (analyze_http_error r url mower_name).2 },
            ds, k + 1⟩
        else
          http_loop env url mower_name fuel (k + 1) st (some r)
            (ds ++ [RETRY_DELAY * (k + 2)])
      else if 400 ≤ r.status_code ∧ r.status_code < 500 then
        ⟨false, some r,
          { st with error := some (analyze_http_error r url mower_name).1,
                    api_limit_reached := (analyze_http_error r url mower_name).2 },
          ds, k + 1⟩
      else if 500 ≤ r.status_code ∧ r.status_code < 600 then
        if k + 1 ≥ 3 then
          ⟨false, some r,
            { st with error := some (analyze_http_error r url mower_name).1,
                      api_limit_reached := (analyze_http_error r url mower_name).2 },
            ds, k + 1⟩
        else
          http_loop env url mower_name fuel (k + 1) st (some r)
            (ds ++ [RETRY_DELAY * (k + 2)])
      else
        ⟨false, some r,
          { st with error := some ("HTTP error (" ++ toString r.status_code ++
              ") not specifically handled.") },
          ds, k + 1⟩
    | .netErr e =>
      let st1 := { st with error := some ("Retry " ++ toString k ++
        " - Connection error to url " ++ url ++ " with error \"" ++ e ++ "\".\n") }
      if k + 1 ≥ 3 then
        ⟨false, prev, st1, ds, k + 1⟩
      else
        http_loop env url mower_name fuel (k + 1) st1 prev (ds ++ [RETRY_DELAY * (k + 2)])

/-- Result of `_http_with_retry`: the returned `Optional[Dict]`, the state
after the call, and the observed sleeps and attempt count. -/
structure HttpResult where
  value : Option Json
  st : ApiState
  delays : List Nat
  attempts : Nat

/-- `_http_with_retry`.  Initializes the stored error to the empty string,
runs the retry
loop, and on success parses the response body (`response.json()`); a decode
failure there records a parse-error message and yields `None`.  The
interpolated `JSONDecodeError` text is runtime-dependent and modelled by the
raw body text. -/
def http_with_retry (env : Nat → AttemptResult) (url : String) (mower_name : Option String)
    (st0 : ApiState) : HttpResult :=
  let lo := http_loop env url mower_name 3 0 { st0 with error := some "" } none []
  if lo.execution_status then
    match lo.response with
    | some r =>
      match r.bodyJson with
      | some j => ⟨some j, lo.st, lo.delays, lo.attempts⟩
      | none =>
        ⟨none, { lo.st with error := some ("Error parsing JSON response: " ++ r.text) },
          lo.delays, lo.attempts⟩
    | none => ⟨none, lo.st, lo.delays, lo.attempts⟩
  else ⟨none, lo.st, lo.delays, lo.attempts⟩

/-- `response.get("expires_in", 0)` as an integer number of seconds.  A
present non-numeric value would raise at runtime inside `timedelta`; no
modelled scenario carries one, and it falls back to 0 here. -/
def expires_in_value (r : Json) : Int :=
  match jsonGet r "expires_in" with
  | some (.num n) => n
  | some _ => 0
  | none => 0

/-- Error message stored by `_get_access_token` when the token request
fails. -/
def bad_auth_message : String :=
  "Bad or unauthorized authentication request (url: " ++ TOKEN_REQUEST ++ ")."

/-- `_get_access_token` at instant `now`: posts the client-credentials
request (outcome given by `env`), and on a truthy JSON response stores it
as the token, clears the error and sets
`access_token_expiration = now + expires_in - TOKEN_REFRESH_MARGIN`;
otherwise records `bad_auth_message` and reports failure.  Header mutation
is I/O and not part of the state model. -/
def get_access_token (now : Int) (env : Nat → AttemptResult) (st : ApiState) :
    Bool × ApiState :=
  let hr := http_with_retry env TOKEN_REQUEST none st
  match hr.value with
  | some r =>
    if truthy r then
      (true, { hr.st with
                 access_token := some r
                 error := none
                 access_token_expiration := now + expires_in_value r - TOKEN_REFRESH_MARGIN })
    else (false, { hr.st with error := some bad_auth_message })
  | none => (false, { hr.st with error := some bad_auth_message })

/-- `_check_access_token_and_renew` at instant `now`: a full re-acquisition
exactly when `now` is strictly past the stored effective expiry, otherwise
the stored token is reused unchanged; `self.state.authenticated` is set to
the result either way. -/
def check_access_token_and_renew (now : Int) (env : Nat → AttemptResult) (st : ApiState) :
    Bool × ApiState :=
  if now > st.access_token_expiration then
    let p := get_access_token now env st
    (p.1, { p.2 with authenticated := p.1 })
  else (true, { st with authenticated := true })

/-- `get_mower_from_name`: first stored mower whose `name` value equals the
given string. -/
def get_mower_from_name (mowers : List Mower) (name : String) : Option Mower :=
  mowers.find? (fun m => m.name == some (Json.str name))

/-- `_find_id_from_name`: the `id` value of that mower (`None` when the
mower is absent or carries no `id`). -/
def find_id_from_name (mowers : List Mower) (name : String) : Option Json :=
  (get_mower_from_name mowers name).bind (fun m => m.id)

/-- Whether the walrus test `if (mower_id := self._find_id_from_name(...)):`
succeeds: an `id` value was found and is truthy. -/
def id_lookup_truthy (mowers : List Mower) (name : String) : Bool :=
  match find_id_from_name mowers name with
  | some j => truthy j
  | none => false

/-- `get_mower_messages`: token check/renewal first, then the id lookup
(failure returns `None` without any HTTP request), then a GET with retry on
the per-mower messages endpoint. -/
def get_mower_messages (now : Int) (tokenEnv msgEnv : Nat → AttemptResult)
    (cs : ClientState) (name : String) : Option Json × ClientState :=
  let ck := check_access_token_and_renew now tokenEnv cs.state
  let cs1 : ClientState := { cs with state := ck.2 }
  if ck.1 = false then (none, cs1)
  else
    match find_id_from_name cs.mowers name with
    | some mid =>
      if truthy mid then
        let hr := http_with_retry msgEnv (MOWERS ++ "/" ++ pyStr mid ++ "/messages")
          (some name) cs1.state
        (hr.value, { cs1 with state := hr.st })
      else (none, cs1)
    | none => (none, cs1)

/-- Outcome of the list comprehension in `_get_mowers`: a parsed list, a
caught `KeyError`/`TypeError` (the function returns `False`), or an
exception that propagates out (an `AttributeError` from calling `.get` on a
non-dict). -/
inductive MowerParse where
  | ok (ms : List Mower)
  | caught
  | uncaught

/-- One element of the comprehension:
a dict with the `id` value and the `name` value found under the
`attributes` / `system` keys (each level defaulting to an empty dict).
`none` when the element or an intermediate value is not a dict, in which
case `.get` raises `AttributeError`. -/
def parse_mower_entry (m : Json) : Option Mower :=
  match m with
  | .obj _ =>
    match dictGetD m "attributes" (.obj []) with
    | .obj afs =>
      match dictGetD (.obj afs) "system" (.obj []) with
      | .obj sfs => some { id := jsonGet m "id", name := jsonGet (.obj sfs) "name" }
      | _ => none
    | _ => none
  | _ => none

/-- The comprehension over `response.get("data", [])`.  Iterating a
non-iterable (number, bool, null) raises `TypeError`, which `_get_mowers`
catches; iterating a non-empty string or dict yields non-dict elements whose
`.get` raises `AttributeError`, which propagates; so does a non-dict
`response`. -/
def parse_mower_list (resp : Json) : MowerParse :=
  match resp with
  | .obj _ =>
    match jsonGet resp "data" with
    | none => .ok []
    | some (.arr xs) =>
      if xs.all (fun x => (parse_mower_entry x).isSome) then
        .ok (xs.filterMap parse_mower_entry)
      else .uncaught
    | some (.str s) => if s = "" then .ok [] else .uncaught
    | some (.obj fs) => if fs.isEmpty then .ok [] else .uncaught
    | some _ => .caught
  | _ => .uncaught

/-- A Python call that either returns a value or raises out of the modelled
code. -/
inductive PyResult (α : Type) where
  | ok (a : α)
  | raised (exc : String)

/-- `_get_mowers`: GET the mower list with retry; on a truthy response parse
it into `self.mowers` (a caught parse error returns `False`). -/
def get_mowers_inner (env : Nat → AttemptResult) (cs : ClientState) :
    PyResult (Bool × ClientState) :=
  let hr := http_with_retry env MOWERS none cs.state
  let cs1 : ClientState := { cs with state := hr.st }
  match hr.value with
  | some j =>
    if truthy j then
      match parse_mower_list j with
      | .ok ms => .ok (true, { cs1 with mowers := ms })
      | .caught => .ok (false, cs1)
      | .uncaught => .raised "AttributeError"
    else .ok (false, cs1)
  | none => .ok (false, cs1)

/-- `get_mowers`: token check/renewal, then `_get_mowers`, and only when
both succeed `timestamp_last_update_mower_list = datetime.now()` (the
instant `now2`). -/
def get_mowers (now : Int) (tokenEnv listEnv : Nat → AttemptResult) (now2 : Int)
    (cs : ClientState) : PyResult (Bool × ClientState) :=
  let ck := check_access_token_and_renew now tokenEnv cs.state
  let cs1 : ClientState := { cs with state := ck.2 }
  if ck.1 then
    match get_mowers_inner listEnv cs1 with
    | .ok (true, cs2) =>
      .ok (true, { cs2 with state :=
        { cs2.state with timestamp_last_update_mower_list := now2 } })
    | .ok (false, cs2) => .ok (false, cs2)
    | .raised e => .raised e
  else .ok (false, cs1)

/-- `get_timestamp_last_update_mower_list`. -/
def get_timestamp_last_update_mower_list (cs : ClientState) : Int :=
  cs.state.timestamp_last_update_mower_list

/-- `get_http_error`. -/
def get_http_error (cs : ClientState) : Option String :=
  cs.state.error

/-- `are_api_limits_reached`. -/
def are_api_limits_reached (cs : ClientState) : Bool :=
  cs.state.api_limit_reached

/-- `are_all_mowers_off`: all stored mowers have the state value `OFF`. -/
def are_all_mowers_off (mowers : List Mower) : Bool :=
  mowers.all (fun m => m.state == some (Json.str "OFF"))

/-- Attempt outcomes the source retries: status 403, a 5xx status, or a
raised network/timeout error. -/
def is_retryable : AttemptResult → Bool
  | .resp r => r.status_code == 403 || (decide (500 ≤ r.status_code) && decide (r.status_code < 600))
  | .netErr _ => true

/-- Error recorded after the third failed attempt of an all-retryable run:
the classification of the final response by `_analyze_http_error`, or the
connection-error message of the final attempt (made at counter 2). -/
def final_retry_error (a : AttemptResult) (url : String) (mower_name : Option String) : String :=
  match a with
  | .resp r => (analyze_http_error r url mower_name).1
  | .netErr e =>
    "Retry " ++ toString (2 : Nat) ++ " - Connection error to url " ++ url ++
      " with error \"" ++ e ++ "\".\n"

/-- The boolean a caller receives from `get_mowers` (`none` when the call
raised out of the modelled code). -/
def py_result_flag : PyResult (Bool × ClientState) → Option Bool
  | .ok (b, _) => some b
  | .raised _ => none

/-- The stored error a caller would read with `get_http_error` right after
`get_mowers` (`none` when the call raised out of the modelled code). -/
def py_result_error : PyResult (Bool × ClientState) → Option (Option String)
  | .ok (_, cs) => some (get_http_error cs)
  | .raised _ => none

/-- A string of length zero is the empty string. -/
theorem eq_empty_of_length_zero {s : String} (h : s.length = 0) : s = "" := by
  cases s with
  | mk data =>
    cases data with
    | nil => rfl
    | cons a as => simp [String.length] at h

/-- Appending to a non-empty string on the left keeps it non-empty. -/
theorem append_ne_empty_left {s : String} (t : String) (hs : s ≠ "") : s ++ t ≠ "" := by
  intro h
  apply hs
  have hl := congrArg String.length h
  rw [String.length_append] at hl
  have h0 : s.length = 0 := by
    have : ("" : String).length = 0 := rfl
    omega
  exact eq_empty_of_length_zero h0

/-- The head prefix of every `_analyze_http_error` message is non-empty. -/
theorem msg_head_ne_empty (r : HttpResponse) (mn : Option String) : msg_head r mn ≠ "" := by
  unfold msg_head
  apply append_ne_empty_left
  apply append_ne_empty_left
  apply append_ne_empty_left
  apply append_ne_empty_left
  intro h
  exact absurd (congrArg String.length h) (by decide)

/-- Every `_analyze_http_error` message is non-empty. -/
theorem analyze_msg_ne_empty (r : HttpResponse) (url : String) (mn : Option String) :
    (analyze_http_error r url mn).1 ≠ "" := by
  unfold analyze_http_error
  exact append_ne_empty_left _ (msg_head_ne_empty r mn)

/-- A 2xx response breaks the retry loop with success after one attempt. -/
theorem loop_step_2xx (env : Nat → AttemptResult) (url : String) (mn : Option String)
    (fuel k : Nat) (st : ApiState) (prev : Option HttpResponse) (ds : List Nat)
    (r : HttpResponse) (he : env k = .resp r)
    (h1 : 200 ≤ r.status_code) (h2 : r.status_code < 300) :
    http_loop env url mn (fuel + 1) k st prev ds =
      ⟨true, some r, { st with error := none, api_limit_reached := false }, ds, k + 1⟩ := by
  simp only [http_loop, he]
  rw [if_pos ⟨h1, h2⟩]

/-- A 403 response with attempts remaining: counter increment, sleep, loop. -/
theorem loop_step_403_retry (env : Nat → AttemptResult) (url : String) (mn : Option String)
    (fuel k : Nat) (st : ApiState) (prev : Option HttpResponse) (ds : List Nat)
    (r : HttpResponse) (he : env k = .resp r)
    (h1 : r.status_code = 403) (hk : k + 1 < 3) :
    http_loop env url mn (fuel + 1) k st prev ds =
      http_loop env url mn fuel (k + 1) st (some r) (ds ++ [RETRY_DELAY * (k + 2)]) := by
  simp only [http_loop, he]
  rw [if_neg (by omega), if_pos h1, if_neg (by omega)]

/-- A 403 response on the last permitted attempt: classified failure. -/
theorem loop_step_403_final (env : Nat → AttemptResult) (url : String) (mn : Option String)
    (fuel k : Nat) (st : ApiState) (prev : Option HttpResponse) (ds : List Nat)
    (r : HttpResponse) (he : env k = .resp r)
    (h1 : r.status_code = 403) (hk : k + 1 ≥ 3) :
    http_loop env url mn (fuel + 1) k st prev ds =
      ⟨false, some r,
        { st with error := some (analyze_http_error r url mn).1,
                  api_limit_reached := (analyze_http_error r url mn).2 },
        ds, k + 1⟩ := by
  simp only [http_loop, he]
  rw [if_neg (by omega), if_pos h1, if_pos hk]

/-- A non-403 4xx response is terminal on the first attempt it appears. -/
theorem loop_step_4xx (env : Nat → AttemptResult) (url : String) (mn : Option String)
    (fuel k : Nat) (st : ApiState) (prev : Option HttpResponse) (ds : List Nat)
    (r : HttpResponse) (he : env k = .resp r)
    (h1 : 400 ≤ r.status_code) (h2 : r.status_code < 500) (h3 : r.status_code ≠ 403) :
    http_loop env url mn (fuel + 1) k st prev ds =
      ⟨false, some r,
        { st with error := some (analyze_http_error r url mn).1,
                  api_limit_reached := (analyze_http_error r url mn).2 },
        ds, k + 1⟩ := by
  simp only [http_loop, he]
  rw [if_neg (by omega), if_neg h3, if_pos ⟨h1, h2⟩]

/-- A 5xx response with attempts remaining: counter increment, sleep, loop. -/
theorem loop_step_5xx_retry (env : Nat → AttemptResult) (url : String) (mn : Option String)
    (fuel k : Nat) (st : ApiState) (prev : Option HttpResponse) (ds : List Nat)
    (r : HttpResponse) (he : env k = .resp r)
    (h1 : 500 ≤ r.status_code) (h2 : r.status_code < 600) (hk : k + 1 < 3) :
    http_loop env url mn (fuel + 1) k st prev ds =
      http_loop env url mn fuel (k + 1) st (some r) (ds ++ [RETRY_DELAY * (k + 2)]) := by
  simp only [http_loop, he]
  rw [if_neg (by omega), if_neg (by omega), if_neg (by omega), if_pos ⟨h1, h2⟩,
    if_neg (by omega)]

/-- A 5xx response on the last permitted attempt: classified failure. -/
theorem loop_step_5xx_final (env : Nat → AttemptResult) (url : String) (mn : Option String)
    (fuel k : Nat) (st : ApiState) (prev : Option HttpResponse) (ds : List Nat)
    (r : HttpResponse) (he : env k = .resp r)
    (h1 : 500 ≤ r.status_code) (h2 : r.status_code < 600) (hk : k + 1 ≥ 3) :
    http_loop env url mn (fuel + 1) k st prev ds =
      ⟨false, some r,
        { st with error := some (analyze_http_error r url mn).1,
                  api_limit_reached := (analyze_http_error r url mn).2 },
        ds, k + 1⟩ := by
  simp only [http_loop, he]
  rw [if_neg (by omega), if_neg (by omega), if_neg (by omega), if_pos ⟨h1, h2⟩, if_pos hk]

/-- A status outside the handled ranges is terminal with the generic
unhandled-status message and no flag update. -/
theorem loop_step_other (env : Nat → AttemptResult) (url : String) (mn : Option String)
    (fuel k : Nat) (st : ApiState) (prev : Option HttpResponse) (ds : List Nat)
    (r : HttpResponse) (he : env k = .resp r)
    (h1 : r.status_code < 200 ∨ (300 ≤ r.status_code ∧ r.status_code < 400) ∨
      600 ≤ r.status_code) :
    http_loop env url mn (fuel + 1) k st prev ds =
      ⟨false, some r,
        { st with error := some ("HTTP error (" ++ toString r.status_code ++
            ") not specifically handled.") },
        ds, k + 1⟩ := by
  simp only [http_loop, he]
  rw [if_neg (by omega), if_neg (by omega), if_neg (by omega), if_neg (by omega)]

/-- A network error with attempts remaining: record the connection message,
increment, sleep, loop. -/
theorem loop_step_net_retry (env : Nat → AttemptResult) (url : String) (mn : Option String)
    (fuel k : Nat) (st : ApiState) (prev : Option HttpResponse) (ds : List Nat)
    (e : String) (he : env k = .netErr e) (hk : k + 1 < 3) :
    http_loop env url mn (fuel + 1) k st prev ds =
      http_loop env url mn fuel (k + 1)
        { st with error := some ("Retry " ++ toString k ++ " - Connection error to url " ++
            url ++ " with error \"" ++ e ++ "\".\n") }
        prev (ds ++ [RETRY_DELAY * (k + 2)]) := by
  simp only [http_loop, he]
  rw [if_neg (by omega)]

/-- A network error on the last permitted attempt: the recorded connection
message is the final error. -/
theorem loop_step_net_final (env : Nat → AttemptResult) (url : String) (mn : Option String)
    (fuel k : Nat) (st : ApiState) (prev : Option HttpResponse) (ds : List Nat)
    (e : String) (he : env k = .netErr e) (hk : k + 1 ≥ 3) :
    http_loop env url mn (fuel + 1) k st prev ds =
      ⟨false, prev,
        { st with error := some ("Retry " ++ toString k ++ " - Connection error to url " ++
            url ++ " with error \"" ++ e ++ "\".\n") },
        ds, k + 1⟩ := by
  simp only [http_loop, he]
  rw [if_pos hk]

/-- The unhandled-status message is non-empty. -/
theorem unhandled_msg_ne_empty (s : Nat) :
    ("HTTP error (" ++ toString s ++ ") not specifically handled.") ≠ "" := by
  apply append_ne_empty_left
  apply append_ne_empty_left
  decide

/-- The connection-error message is non-empty. -/
theorem conn_msg_ne_empty (k : Nat) (url e : String) :
    ("Retry " ++ toString k ++ " - Connection error to url " ++ url ++
      " with error \"" ++ e ++ "\".\n") ≠ "" := by
  apply append_ne_empty_left
  apply append_ne_empty_left
  apply append_ne_empty_left
  apply append_ne_empty_left
  apply append_ne_empty_left
  apply append_ne_empty_left
  decide

/-- The retry loop touches only the `error` and `api_limit_reached` fields
of the state. -/
theorem http_loop_frame (env : Nat → AttemptResult) (url : String) (mn : Option String) :
    ∀ fuel k st prev ds, fuel + k = 3 → k < 3 →
      (http_loop env url mn fuel k st prev ds).st.access_token = st.access_token ∧
      (http_loop env url mn fuel k st prev ds).st.access_token_expiration =
        st.access_token_expiration ∧
      (http_loop env url mn fuel k st prev ds).st.timestamp_last_update_mower_list =
        st.timestamp_last_update_mower_list ∧
      (http_loop env url mn fuel k st prev ds).st.authenticated = st.authenticated := by
  intro fuel
  induction fuel with
  | zero => intro k st prev ds hsum hk; omega
  | succ fuel ih =>
    intro k st prev ds hsum hk
    cases he : env k with
    | resp r =>
      by_cases h2xx : 200 ≤ r.status_code ∧ r.status_code < 300
      · rw [loop_step_2xx env url mn fuel k st prev ds r he h2xx.1 h2xx.2]
        exact ⟨rfl, rfl, rfl, rfl⟩
      · by_cases h403 : r.status_code = 403
        · by_cases hk3 : k + 1 ≥ 3
          · rw [loop_step_403_final env url mn fuel k st prev ds r he h403 hk3]
            exact ⟨rfl, rfl, rfl, rfl⟩
          · rw [loop_step_403_retry env url mn fuel k st prev ds r he h403 (by omega)]
            exact ih (k + 1) st (some r) _ (by omega) (by omega)
        · by_cases h4xx : 400 ≤ r.status_code ∧ r.status_code < 500
          · rw [loop_step_4xx env url mn fuel k st prev ds r he h4xx.1 h4xx.2 h403]
            exact ⟨rfl, rfl, rfl, rfl⟩
          · by_cases h5xx : 500 ≤ r.status_code ∧ r.status_code < 600
            · by_cases hk3 : k + 1 ≥ 3
              · rw [loop_step_5xx_final env url mn fuel k st prev ds r he h5xx.1 h5xx.2 hk3]
                exact ⟨rfl, rfl, rfl, rfl⟩
              · rw [loop_step_5xx_retry env url mn fuel k st prev ds r he h5xx.1 h5xx.2
                  (by omega)]
                exact ih (k + 1) st (some r) _ (by omega) (by omega)
            · rw [loop_step_other env url mn fuel k st prev ds r he (by omega)]
              exact ⟨rfl, rfl, rfl, rfl⟩
    | netErr e =>
      by_cases hk3 : k + 1 ≥ 3
      · rw [loop_step_net_final env url mn fuel k st prev ds e he hk3]
        exact ⟨rfl, rfl, rfl, rfl⟩
      · rw [loop_step_net_retry env url mn fuel k st prev ds e he (by omega)]
        exact ih (k + 1) _ prev _ (by omega) (by omega)

/-- Whenever the retry loop ends without success, a non-empty error message
has been stored. -/
theorem http_loop_failure_msg (env : Nat → AttemptResult) (url : String) (mn : Option String) :
    ∀ fuel k st prev ds, fuel + k = 3 → k < 3 →
      (http_loop env url mn fuel k st prev ds).execution_status = false →
      ∃ m, (http_loop env url mn fuel k st prev ds).st.error = some m ∧ m ≠ "" := by
  intro fuel
  induction fuel with
  | zero => intro k st prev ds hsum hk; omega
  | succ fuel ih =>
    intro k st prev ds hsum hk
    cases he : env k with
    | resp r =>
      by_cases h2xx : 200 ≤ r.status_code ∧ r.status_code < 300
      · rw [loop_step_2xx env url mn fuel k st prev ds r he h2xx.1 h2xx.2]
        intro h
        exact absurd h (by simp)
      · by_cases h403 : r.status_code = 403
        · by_cases hk3 : k + 1 ≥ 3
          · rw [loop_step_403_final env url mn fuel k st prev ds r he h403 hk3]
            intro h
            exact ⟨(analyze_http_error r url mn).1, rfl, analyze_msg_ne_empty r url mn⟩
          · rw [loop_step_403_retry env url mn fuel k st prev ds r he h403 (by omega)]
            exact ih (k + 1) st (some r) _ (by omega) (by omega)
        · by_cases h4xx : 400 ≤ r.status_code ∧ r.status_code < 500
          · rw [loop_step_4xx env url mn fuel k st prev ds r he h4xx.1 h4xx.2 h403]
            intro h
            exact ⟨(analyze_http_error r url mn).1, rfl, analyze_msg_ne_empty r url mn⟩
          · by_cases h5xx : 500 ≤ r.status_code ∧ r.status_code < 600
            · by_cases hk3 : k + 1 ≥ 3
              · rw [loop_step_5xx_final env url mn fuel k st prev ds r he h5xx.1 h5xx.2 hk3]
                intro h
                exact ⟨(analyze_http_error r url mn).1, rfl, analyze_msg_ne_empty r url mn⟩
              · rw [loop_step_5xx_retry env url mn fuel k st prev ds r he h5xx.1 h5xx.2
                  (by omega)]
                exact ih (k + 1) st (some r) _ (by omega) (by omega)
            · rw [loop_step_other env url mn fuel k st prev ds r he (by omega)]
              intro h
              exact ⟨_, rfl, unhandled_msg_ne_empty r.status_code⟩
    | netErr e =>
      by_cases hk3 : k + 1 ≥ 3
      · rw [loop_step_net_final env url mn fuel k st prev ds e he hk3]
        intro h
        exact ⟨_, rfl, conn_msg_ne_empty k url e⟩
      · rw [loop_step_net_retry env url mn fuel k st prev ds e he (by omega)]
        exact ih (k + 1) _ prev _ (by omega) (by omega)

/-- Whenever the retry loop ends with success, the last response is a 2xx
response, the error slot was cleared and the rate-limit flag reset. -/
theorem http_loop_success_char (env : Nat → AttemptResult) (url : String) (mn : Option String) :
    ∀ fuel k st prev ds, fuel + k = 3 → k < 3 →
      (http_loop env url mn fuel k st prev ds).execution_status = true →
      ∃ r, (http_loop env url mn fuel k st prev ds).response = some r ∧
        (http_loop env url mn fuel k st prev ds).st.error = none ∧
        (http_loop env url mn fuel k st prev ds).st.api_limit_reached = false := by
  intro fuel
  induction fuel with
  | zero => intro k st prev ds hsum hk; omega
  | succ fuel ih =>
    intro k st prev ds hsum hk
    cases he : env k with
    | resp r =>
      by_cases h2xx : 200 ≤ r.status_code ∧ r.status_code < 300
      · rw [loop_step_2xx env url mn fuel k st prev ds r he h2xx.1 h2xx.2]
        intro h
        exact ⟨r, rfl, rfl, rfl⟩
      · by_cases h403 : r.status_code = 403
        · by_cases hk3 : k + 1 ≥ 3
          · rw [loop_step_403_final env url mn fuel k st prev ds r he h403 hk3]
            intro h
            exact absurd h (by simp)
          · rw [loop_step_403_retry env url mn fuel k st prev ds r he h403 (by omega)]
            exact ih (k + 1) st (some r) _ (by omega) (by omega)
        · by_cases h4xx : 400 ≤ r.status_code ∧ r.status_code < 500
          · rw [loop_step_4xx env url mn fuel k st prev ds r he h4xx.1 h4xx.2 h403]
            intro h
            exact absurd h (by simp)
          · by_cases h5xx : 500 ≤ r.status_code ∧ r.status_code < 600
            · by_cases hk3 : k + 1 ≥ 3
              · rw [loop_step_5xx_final env url mn fuel k st prev ds r he h5xx.1 h5xx.2 hk3]
                intro h
                exact absurd h (by simp)
              · rw [loop_step_5xx_retry env url mn fuel k st prev ds r he h5xx.1 h5xx.2
                  (by omega)]
                exact ih (k + 1) st (some r) _ (by omega) (by omega)
            · rw [loop_step_other env url mn fuel k st prev ds r he (by omega)]
              intro h
              exact absurd h (by simp)
    | netErr e =>
      by_cases hk3 : k + 1 ≥ 3
      · rw [loop_step_net_final env url mn fuel k st prev ds e he hk3]
        intro h
        exact absurd h (by simp)
      · rw [loop_step_net_retry env url mn fuel k st prev ds e he (by omega)]
        exact ih (k + 1) _ prev _ (by omega) (by omega)

/-- `_http_with_retry` touches only the `error` and `api_limit_reached`
fields of the state. -/
theorem http_with_retry_frame (env : Nat → AttemptResult) (url : String) (mn : Option String)
    (st0 : ApiState) :
    (http_with_retry env url mn st0).st.access_token = st0.access_token ∧
    (http_with_retry env url mn st0).st.access_token_expiration =
      st0.access_token_expiration ∧
    (http_with_retry env url mn st0).st.timestamp_last_update_mower_list =
      st0.timestamp_last_update_mower_list ∧
    (http_with_retry env url mn st0).st.authenticated = st0.authenticated := by
  have hf := http_loop_frame env url mn 3 0 { st0 with error := some "" } none []
    (by omega) (by omega)
  unfold http_with_retry
  rcases hL : http_loop env url mn 3 0 { st0 with error := some "" } none [] with
    ⟨ex, resp, stL, dsL, atL⟩
  rw [hL] at hf
  simp only at hf
  cases ex
  · simpa using hf
  · cases resp with
    | none => simpa using hf
    | some r =>
      cases hb : r.bodyJson
      · simp only [hb]
        simpa using hf
      · simp only [hb]
        simpa using hf

/-- When `_http_with_retry` returns `None`, a non-empty error message is
stored. -/
theorem http_with_retry_none_error (env : Nat → AttemptResult) (url : String)
    (mn : Option String) (st0 : ApiState) :
    (http_with_retry env url mn st0).value = none →
    ∃ m, (http_with_retry env url mn st0).st.error = some m ∧ m ≠ "" := by
  have hfail := http_loop_failure_msg env url mn 3 0 { st0 with error := some "" } none []
    (by omega) (by omega)
  have hsucc := http_loop_success_char env url mn 3 0 { st0 with error := some "" } none []
    (by omega) (by omega)
  unfold http_with_retry
  rcases hL : http_loop env url mn 3 0 { st0 with error := some "" } none [] with
    ⟨ex, resp, stL, dsL, atL⟩
  rw [hL] at hfail hsucc
  simp only at hfail hsucc
  cases ex
  · intro _
    exact hfail rfl
  · rcases hsucc rfl with ⟨r, hr, herr, hflag⟩
    subst hr
    cases hb : r.bodyJson with
    | none =>
      intro _
      refine ⟨"Error parsing JSON response: " ++ r.text, by simp [hb], ?_⟩
      apply append_ne_empty_left
      decide
    | some j =>
      simp [hb]

/-- When `_http_with_retry` returns a payload, the error slot is cleared and
the rate-limit flag is reset. -/
theorem http_with_retry_some_clears (env : Nat → AttemptResult) (url : String)
    (mn : Option String) (st0 : ApiState) (j : Json) :
    (http_with_retry env url mn st0).value = some j →
    (http_with_retry env url mn st0).st.error = none ∧
    (http_with_retry env url mn st0).st.api_limit_reached = false := by
  have hsucc := http_loop_success_char env url mn 3 0 { st0 with error := some "" } none []
    (by omega) (by omega)
  unfold http_with_retry
  rcases hL : http_loop env url mn 3 0 { st0 with error := some "" } none [] with
    ⟨ex, resp, stL, dsL, atL⟩
  rw [hL] at hsucc
  simp only at hsucc
  cases ex
  · simp
  · rcases hsucc rfl with ⟨r, hr, herr, hflag⟩
    subst hr
    cases hb : r.bodyJson with
    | none => simp [hb]
    | some j2 =>
      intro hv
      simp [hb] at hv ⊢
      exact ⟨herr, hflag⟩

/-- One retryable attempt with attempts remaining reduces to the loop at the
next counter value, after a sleep of `RETRY_DELAY * (k + 2)`. -/
theorem loop_retryable_retry (env : Nat → AttemptResult) (url : String) (mn : Option String)
    (fuel k : Nat) (st : ApiState) (prev : Option HttpResponse) (ds : List Nat)
    (hk : k + 1 < 3) (h : is_retryable (env k) = true) :
    ∃ st2 prev2, http_loop env url mn (fuel + 1) k st prev ds =
      http_loop env url mn fuel (k + 1) st2 prev2 (ds ++ [RETRY_DELAY * (k + 2)]) := by
  cases he : env k with
  | resp r =>
    rw [he] at h
    simp only [is_retryable, Bool.or_eq_true, Bool.and_eq_true, beq_iff_eq,
      decide_eq_true_eq] at h
    rcases h with h403 | ⟨h5a, h5b⟩
    · exact ⟨st, some r, loop_step_403_retry env url mn fuel k st prev ds r he h403 hk⟩
    · exact ⟨st, some r, loop_step_5xx_retry env url mn fuel k st prev ds r he h5a h5b hk⟩
  | netErr e =>
    exact ⟨_, prev, loop_step_net_retry env url mn fuel k st prev ds e he hk⟩

/-- A retryable outcome at counter 2 ends the loop with the classified error
of that last attempt, no further sleep, and three attempts in total. -/
theorem loop_retryable_final (env : Nat → AttemptResult) (url : String) (mn : Option String)
    (fuel : Nat) (st : ApiState) (prev : Option HttpResponse) (ds : List Nat)
    (h : is_retryable (env 2) = true) :
    (http_loop env url mn (fuel + 1) 2 st prev ds).execution_status = false ∧
    (http_loop env url mn (fuel + 1) 2 st prev ds).st.error =
      some (final_retry_error (env 2) url mn) ∧
    (http_loop env url mn (fuel + 1) 2 st prev ds).delays = ds ∧
    (http_loop env url mn (fuel + 1) 2 st prev ds).attempts = 3 := by
  cases he : env 2 with
  | resp r =>
    rw [he] at h
    simp only [is_retryable, Bool.or_eq_true, Bool.and_eq_true, beq_iff_eq,
      decide_eq_true_eq] at h
    rcases h with h403 | ⟨h5a, h5b⟩
    · rw [loop_step_403_final env url mn fuel 2 st prev ds r he h403 (by omega)]
      simp [final_retry_error, he]
    · rw [loop_step_5xx_final env url mn fuel 2 st prev ds r he h5a h5b (by omega)]
      simp [final_retry_error, he]
  | netErr e =>
    rw [loop_step_net_final env url mn fuel 2 st prev ds e he (by omega)]
    simp [final_retry_error, he]

/-- C2: when every attempt hits a retryable condition (403, 5xx, or a
network/timeout error), `_http_with_retry` makes exactly 3 attempts, sleeps
`RETRY_DELAY * (n + 1)` after the n-th attempt (n = 1, 2; a strictly
increasing sequence with no sleep after the final attempt), returns `None`,
and records the error classified from the last attempt. -/
theorem retry_exhaustion_three_attempts (env : Nat → AttemptResult) (url : String)
    (mn : Option String) (st0 : ApiState)
    (h : ∀ i, i < 3 → is_retryable (env i) = true) :
    (http_with_retry env url mn st0).attempts = 3 ∧
    (http_with_retry env url mn st0).delays = [RETRY_DELAY * (1 + 1), RETRY_DELAY * (2 + 1)] ∧
    RETRY_DELAY * (1 + 1) < RETRY_DELAY * (2 + 1) ∧
    (http_with_retry env url mn st0).value = none ∧
    (http_with_retry env url mn st0).st.error = some (final_retry_error (env 2) url mn) := by
  obtain ⟨st1, p1, e1⟩ := loop_retryable_retry env url mn 2 0 { st0 with error := some "" }
    none [] (by omega) (h 0 (by omega))
  simp only [Nat.reduceAdd, List.nil_append] at e1
  obtain ⟨st2, p2, e2⟩ := loop_retryable_retry env url mn 1 1 st1 p1 [RETRY_DELAY * 2]
    (by omega) (h 1 (by omega))
  simp only [Nat.reduceAdd] at e2
  have hf := loop_retryable_final env url mn 0 st2 p2 ([RETRY_DELAY * 2] ++ [RETRY_DELAY * 3])
    (h 2 (by omega))
  simp only [Nat.reduceAdd] at hf
  unfold http_with_retry
  rw [e1, e2]
  rcases hL : http_loop env url mn 1 2 st2 p2 ([RETRY_DELAY * 2] ++ [RETRY_DELAY * 3]) with
    ⟨ex, resp, stL, dsL, atL⟩
  rw [hL] at hf
  simp only at hf
  rcases hf with ⟨hex, herr, hds, hat⟩
  subst hex
  simp only [if_neg (by simp : ¬(false = true))]
  refine ⟨hat, ?_, by norm_num [RETRY_DELAY], trivial, herr⟩
  rw [hds]
  norm_num

/-- Witness for C2 at a persistent 403. -/
theorem retry_exhaustion_three_attempts_check :
    (http_with_retry (fun _ => .resp ⟨403, none, "x"⟩) "u" none {}).attempts = 3 ∧
    (http_with_retry (fun _ => .resp ⟨403, none, "x"⟩) "u" none {}).delays =
      [RETRY_DELAY * (1 + 1), RETRY_DELAY * (2 + 1)] ∧
    (http_with_retry (fun _ => .resp ⟨403, none, "x"⟩) "u" none {}).value = none :=
  ⟨(retry_exhaustion_three_attempts (fun _ => .resp ⟨403, none, "x"⟩) "u" none {} (fun _ _ => rfl)).1,
   (retry_exhaustion_three_attempts (fun _ => .resp ⟨403, none, "x"⟩) "u" none {} (fun _ _ => rfl)).2.1,
   (retry_exhaustion_three_attempts (fun _ => .resp ⟨403, none, "x"⟩) "u" none {} (fun _ _ => rfl)).2.2.2.1⟩

/-- C3: a 429 response is terminal after exactly one attempt with no retry
delay; the rate-limit flag becomes true, the classified error message is
recorded (and is non-empty), and the call returns `None`. -/
theorem rate_limit_429_single_attempt (env : Nat → AttemptResult) (url : String)
    (mn : Option String) (st0 : ApiState) (r : HttpResponse)
    (he : env 0 = .resp r) (hs : r.status_code = 429) :
    (http_with_retry env url mn st0).attempts = 1 ∧
    (http_with_retry env url mn st0).delays = [] ∧
    (http_with_retry env url mn st0).value = none ∧
    (http_with_retry env url mn st0).st.api_limit_reached = true ∧
    (http_with_retry env url mn st0).st.error = some (analyze_http_error r url mn).1 ∧
    (analyze_http_error r url mn).1 ≠ "" := by
  unfold http_with_retry
  rw [show (3 : Nat) = 2 + 1 from rfl,
    loop_step_4xx env url mn 2 0 { st0 with error := some "" } none [] r he
      (by omega) (by omega) (by omega)]
  refine ⟨rfl, rfl, ?_, ?_, ?_, analyze_msg_ne_empty r url mn⟩
  · simp
  · simp [analyze_http_error, hs]
  · simp

/-- Witness for C3 at a concrete 429 response. -/
theorem rate_limit_429_single_attempt_check :
    (http_with_retry (fun _ => .resp ⟨429, none, "x"⟩) "u" none {}).attempts = 1 ∧
    (http_with_retry (fun _ => .resp ⟨429, none, "x"⟩) "u" none {}).delays = [] ∧
    (http_with_retry (fun _ => .resp ⟨429, none, "x"⟩) "u" none {}).st.api_limit_reached
      = true :=
  ⟨(rate_limit_429_single_attempt (fun _ => .resp ⟨429, none, "x"⟩) "u" none {} ⟨429, none, "x"⟩ rfl rfl).1,
   (rate_limit_429_single_attempt (fun _ => .resp ⟨429, none, "x"⟩) "u" none {} ⟨429, none, "x"⟩ rfl rfl).2.1,
   (rate_limit_429_single_attempt (fun _ => .resp ⟨429, none, "x"⟩) "u" none {} ⟨429, none, "x"⟩ rfl rfl).2.2.2.1⟩

/-- C5: a 2xx response ends the call after one attempt with no delay; with a
valid-JSON body the parsed body is returned exactly and the error and
rate-limit state are cleared, while with an invalid body the call returns
`None` and records a (non-empty) parse-error message instead of raising. -/
theorem success_roundtrip_json (env : Nat → AttemptResult) (url : String)
    (mn : Option String) (st0 : ApiState) (r : HttpResponse)
    (he : env 0 = .resp r) (h1 : 200 ≤ r.status_code) (h2 : r.status_code < 300) :
    (http_with_retry env url mn st0).attempts = 1 ∧
    (http_with_retry env url mn st0).delays = [] ∧
    (∀ j, r.bodyJson = some j →
      (http_with_retry env url mn st0).value = some j ∧
      (http_with_retry env url mn st0).st.error = none ∧
      (http_with_retry env url mn st0).st.api_limit_reached = false) ∧
    (r.bodyJson = none →
      (http_with_retry env url mn st0).value = none ∧
      (http_with_retry env url mn st0).st.error =
        some ("Error parsing JSON response: " ++ r.text) ∧
      ("Error parsing JSON response: " ++ r.text) ≠ "") := by
  unfold http_with_retry
  rw [show (3 : Nat) = 2 + 1 from rfl,
    loop_step_2xx env url mn 2 0 { st0 with error := some "" } none [] r he h1 h2]
  refine ⟨?_, ?_, ?_, ?_⟩
  · cases hb : r.bodyJson <;> simp [hb]
  · cases hb : r.bodyJson <;> simp [hb]
  · intro j hb
    simp [hb]
  · intro hb
    refine ⟨?_, ?_, ?_⟩
    · simp [hb]
    · simp [hb]
    · apply append_ne_empty_left
      decide

/-- Witness for C5: one 2xx response with a JSON body and one with a
malformed body. -/
theorem success_roundtrip_json_check :
    (http_with_retry (fun _ => .resp ⟨200, some (.obj [("a", .num 1)]), "ok"⟩) "u" none
      {}).value = some (.obj [("a", .num 1)]) ∧
    (http_with_retry (fun _ => .resp ⟨204, none, "bad"⟩) "u" none {}).value = none ∧
    (http_with_retry (fun _ => .resp ⟨204, none, "bad"⟩) "u" none {}).st.error =
      some ("Error parsing JSON response: " ++ "bad") :=
  ⟨((success_roundtrip_json (fun _ => .resp ⟨200, some (.obj [("a", .num 1)]), "ok"⟩) "u"
      none {} ⟨200, some (.obj [("a", .num 1)]), "ok"⟩ rfl (by decide) (by decide)).2.2.1
      (.obj [("a", .num 1)]) rfl).1,
   ((success_roundtrip_json (fun _ => .resp ⟨204, none, "bad"⟩) "u" none {}
      ⟨204, none, "bad"⟩ rfl (by decide) (by decide)).2.2.2 rfl).1,
   ((success_roundtrip_json (fun _ => .resp ⟨204, none, "bad"⟩) "u" none {}
      ⟨204, none, "bad"⟩ rfl (by decide) (by decide)).2.2.2 rfl).2.1⟩

/-- A retryable response at counter 2 sets the flag from that response. -/
theorem loop_retryable_final_flag (env : Nat → AttemptResult) (url : String)
    (mn : Option String) (fuel : Nat) (st : ApiState) (prev : Option HttpResponse)
    (ds : List Nat) (r : HttpResponse) (he : env 2 = .resp r)
    (h : is_retryable (env 2) = true) :
    (http_loop env url mn (fuel + 1) 2 st prev ds).st.api_limit_reached =
      (r.status_code == 429) := by
  rw [he] at h
  simp only [is_retryable, Bool.or_eq_true, Bool.and_eq_true, beq_iff_eq,
    decide_eq_true_eq] at h
  rcases h with h403 | ⟨h5a, h5b⟩
  · rw [loop_step_403_final env url mn fuel 2 st prev ds r he h403 (by omega)]
    rfl
  · rw [loop_step_5xx_final env url mn fuel 2 st prev ds r he h5a h5b (by omega)]
    rfl

/-- Three attempts on a constantly retryable response (403 or 5xx) end with
the rate-limit flag taken from that response and a `None` result. -/
theorem const_retryable_resp_flag (r : HttpResponse) (url : String) (mn : Option String)
    (st0 : ApiState) (h : is_retryable (.resp r) = true) :
    (http_with_retry (fun _ => .resp r) url mn st0).st.api_limit_reached =
      (r.status_code == 429) ∧
    (http_with_retry (fun _ => .resp r) url mn st0).value = none := by
  obtain ⟨st1, p1, e1⟩ := loop_retryable_retry (fun _ => .resp r) url mn 2 0
    { st0 with error := some "" } none [] (by omega) h
  simp only [Nat.reduceAdd, List.nil_append] at e1
  obtain ⟨st2, p2, e2⟩ := loop_retryable_retry (fun _ => .resp r) url mn 1 1 st1 p1
    [RETRY_DELAY * 2] (by omega) h
  simp only [Nat.reduceAdd] at e2
  have hf := loop_retryable_final (fun _ => .resp r) url mn 0 st2 p2
    ([RETRY_DELAY * 2] ++ [RETRY_DELAY * 3]) h
  have hflag := loop_retryable_final_flag (fun _ => .resp r) url mn 0 st2 p2
    ([RETRY_DELAY * 2] ++ [RETRY_DELAY * 3]) r rfl h
  simp only [Nat.reduceAdd] at hf hflag
  unfold http_with_retry
  rw [e1, e2]
  rcases hL : http_loop (fun _ => .resp r) url mn 1 2 st2 p2
    ([RETRY_DELAY * 2] ++ [RETRY_DELAY * 3]) with ⟨ex, resp, stL, dsL, atL⟩
  rw [hL] at hf hflag
  simp only at hf hflag
  rcases hf with ⟨hex, _, _, _⟩
  subst hex
  simp only [if_neg (by simp : ¬(false = true))]
  exact ⟨hflag, trivial⟩

/-- Every attempt failing with a raised network error leaves the loop in
failure with the rate-limit flag untouched (the `except` branch of the loop
sets only the error string). -/
theorem http_loop_all_net (env : Nat → AttemptResult) (url : String) (mn : Option String) :
    ∀ fuel k st prev ds, fuel + k = 3 → k < 3 →
      (∀ i, i < 3 → ∃ e, env i = .netErr e) →
      (http_loop env url mn fuel k st prev ds).execution_status = false ∧
      (http_loop env url mn fuel k st prev ds).st.api_limit_reached =
        st.api_limit_reached := by
  intro fuel
  induction fuel with
  | zero => intro k st prev ds hsum hk _; omega
  | succ fuel ih =>
    intro k st prev ds hsum hk hnet
    obtain ⟨e, he⟩ := hnet k (by omega)
    by_cases hk3 : k + 1 ≥ 3
    · rw [loop_step_net_final env url mn fuel k st prev ds e he hk3]
      exact ⟨rfl, rfl⟩
    · rw [loop_step_net_retry env url mn fuel k st prev ds e he (by omega)]
      exact ih (k + 1) _ prev _ (by omega) (by omega) hnet

/-- C4 (amended): after a call against a constant response, the rate-limit
flag is `false` after a 2xx success, equals `status == 429` after a 4xx or
the final attempt of a persistent 403/5xx (so it is true exactly for 429
there, and a terminal non-429 4xx such as 404 leaves it false), but after a
status outside the handled ranges (1xx, 3xx, ≥ 600) the flag keeps its
previous value — and so does a call whose every attempt raises a network
error — so a stale `true` can survive such an operation. -/
theorem rate_limit_flag_update_rules (r : HttpResponse) (url : String) (mn : Option String)
    (st0 : ApiState) :
    (200 ≤ r.status_code → r.status_code < 300 →
      (http_with_retry (fun _ => .resp r) url mn st0).st.api_limit_reached = false) ∧
    (400 ≤ r.status_code → r.status_code < 600 →
      (http_with_retry (fun _ => .resp r) url mn st0).st.api_limit_reached =
        (r.status_code == 429)) ∧
    (r.status_code < 200 ∨ (300 ≤ r.status_code ∧ r.status_code < 400) ∨
        600 ≤ r.status_code →
      (http_with_retry (fun _ => .resp r) url mn st0).st.api_limit_reached =
        st0.api_limit_reached) ∧
    (∀ envN : Nat → String,
      (http_with_retry (fun i => .netErr (envN i)) url mn st0).st.api_limit_reached =
        st0.api_limit_reached) := by
  refine ⟨?_, ?_, ?_, ?_⟩
  · intro h1 h2
    unfold http_with_retry
    rw [show (3 : Nat) = 2 + 1 from rfl,
      loop_step_2xx (fun _ => .resp r) url mn 2 0 { st0 with error := some "" } none [] r
        rfl h1 h2]
    cases hb : r.bodyJson <;> simp [hb]
  · intro h1 h2
    by_cases h403 : r.status_code = 403
    · exact (const_retryable_resp_flag r url mn st0
        (by simp [is_retryable, h403])).1
    · by_cases h4 : r.status_code < 500
      · unfold http_with_retry
        rw [show (3 : Nat) = 2 + 1 from rfl,
          loop_step_4xx (fun _ => .resp r) url mn 2 0 { st0 with error := some "" } none []
            r rfl h1 h4 h403]
        simp [analyze_http_error]
      · exact (const_retryable_resp_flag r url mn st0
          (by simp only [is_retryable, Bool.or_eq_true, Bool.and_eq_true, beq_iff_eq,
                decide_eq_true_eq]
              omega)).1
  · intro h1
    unfold http_with_retry
    rw [show (3 : Nat) = 2 + 1 from rfl,
      loop_step_other (fun _ => .resp r) url mn 2 0 { st0 with error := some "" } none [] r
        rfl h1]
    simp
  · intro envN
    have h := http_loop_all_net (fun i => .netErr (envN i)) url mn 3 0
      { st0 with error := some "" } none [] (by omega) (by omega)
      (fun i _ => ⟨envN i, rfl⟩)
    unfold http_with_retry
    rcases hL : http_loop (fun i => .netErr (envN i)) url mn 3 0
      { st0 with error := some "" } none [] with ⟨ex, resp, stL, dsL, atL⟩
    rw [hL] at h
    simp only at h
    rcases h with ⟨hex, hflag⟩
    subst hex
    simp only [if_neg (by simp : ¬(false = true))]
    exact hflag

/-- Counterexample for C4 as stated: a response with the unhandled status
300 leaves a previously set rate-limit flag `true`, although the most
recent HTTP response did not have status 429. -/
theorem rate_limit_flag_stale_on_unhandled_status :
    (http_with_retry (fun _ => .resp ⟨300, none, ""⟩) "u" none
      { api_limit_reached := true }).st.api_limit_reached = true ∧
    (300 : Nat) ≠ 429 := by
  constructor
  · rfl
  · decide

/-- Witness for C4 (amended) at a 404, at a 200, and at a run of three
raised network errors. -/
theorem rate_limit_flag_update_rules_check :
    (http_with_retry (fun _ => .resp ⟨404, none, ""⟩) "u" none {}).st.api_limit_reached =
      ((404 : Nat) == 429) ∧
    (http_with_retry (fun _ => .resp ⟨200, some .null, ""⟩) "u" none
      { api_limit_reached := true }).st.api_limit_reached = false ∧
    (http_with_retry (fun _ => .netErr "boom") "u" none
      { api_limit_reached := true }).st.api_limit_reached = true :=
  ⟨(rate_limit_flag_update_rules ⟨404, none, ""⟩ "u" none {}).2.1 (by decide) (by decide),
   (rate_limit_flag_update_rules ⟨200, some .null, ""⟩ "u" none
      { api_limit_reached := true }).1 (by decide) (by decide),
   (rate_limit_flag_update_rules ⟨404, none, ""⟩ "u" none
      { api_limit_reached := true }).2.2.2 (fun _ => "boom")⟩

/-- C6 (amended): on failures classified from the response,
`_analyze_http_error` builds the message by: an `errors` key that is a list
— empty list gives the defaults `Unknown Error: No detail`, a non-empty list
with a dict first entry gives its title and detail — else a `message` key
gives that message, else the uncaptured-error text with the status code; a
non-JSON body gives the decode-failure text with the raw body; all of these
carry the URL and the mower-name context.  The unhandled-status terminal
failure (1xx, 3xx, ≥ 600) instead records a plain message with only the
status code and no URL. -/
theorem error_message_construction_rules (url : String) (mn : Option String) :
    (∀ r : HttpResponse, ∀ fs, r.bodyJson = some (.obj fs) →
      jsonGet (.obj fs) "errors" = some (.arr []) →
      (analyze_http_error r url mn).1 =
        msg_head r mn ++ "Unknown Error: No detail (url: " ++ url ++ ")") ∧
    (∀ r : HttpResponse, ∀ fs e rest, r.bodyJson = some (.obj fs) →
      jsonGet (.obj fs) "errors" = some (.arr (.obj e :: rest)) →
      (analyze_http_error r url mn).1 =
        msg_head r mn ++ pyStr (dictGetD (.obj e) "title" (.str "Unknown Error")) ++
          ": " ++ pyStr (dictGetD (.obj e) "detail" (.str "No detail")) ++
          " (url: " ++ url ++ ")") ∧
    (∀ r : HttpResponse, ∀ fs v, r.bodyJson = some (.obj fs) →
      jsonGet (.obj fs) "errors" = none → jsonGet (.obj fs) "message" = some v →
      (analyze_http_error r url mn).1 =
        msg_head r mn ++ pyStr v ++ " (url: " ++ url ++ ")") ∧
    (∀ r : HttpResponse, ∀ fs, r.bodyJson = some (.obj fs) →
      jsonGet (.obj fs) "errors" = none → jsonGet (.obj fs) "message" = none →
      (analyze_http_error r url mn).1 =
        msg_head r mn ++ "Uncaptured error returned by Husqvarna API (url: " ++
          url ++ ")") ∧
    (∀ r : HttpResponse, r.bodyJson = none →
      (analyze_http_error r url mn).1 =
        msg_head r mn ++ "Uncaptured error returned by Husqvarna API (url: " ++ url ++
          ", response: " ++ r.text ++ ") - JSON decode error") ∧
    (∀ r : HttpResponse, ∀ st0 : ApiState,
      r.status_code < 200 ∨ (300 ≤ r.status_code ∧ r.status_code < 400) ∨
        600 ≤ r.status_code →
      (http_with_retry (fun _ => .resp r) url mn st0).st.error =
        some ("HTTP error (" ++ toString r.status_code ++ ") not specifically handled.")) := by
  refine ⟨?_, ?_, ?_, ?_, ?_, ?_⟩
  · intro r fs h1 h2
    simp [analyze_http_error, analyze_http_error_tail, h1, h2, truthy, String.append_assoc]
  · intro r fs e rest h1 h2
    simp [analyze_http_error, analyze_http_error_tail, h1, h2, truthy, String.append_assoc]
  · intro r fs v h1 h2 h3
    simp [analyze_http_error, analyze_http_error_tail, h1, h2, h3, String.append_assoc]
  · intro r fs h1 h2 h3
    simp [analyze_http_error, analyze_http_error_tail, h1, h2, h3, String.append_assoc]
  · intro r h1
    simp [analyze_http_error, analyze_http_error_tail, h1, String.append_assoc]
  · intro r st0 h1
    unfold http_with_retry
    rw [show (3 : Nat) = 2 + 1 from rfl,
      loop_step_other (fun _ => .resp r) url mn 2 0 { st0 with error := some "" } none [] r
        rfl h1]
    simp

/-- Counterexample for C6 as stated: with body
`{"errors": [], "message": "boom"}` the empty `errors` list takes precedence
over the `message` field (the source tests key presence, not non-emptiness),
and the unhandled-status terminal message omits the request URL. -/
theorem error_message_precedence_failure :
    (analyze_http_error ⟨404, some (.obj [("errors", .arr []), ("message", .str "boom")]),
      "raw"⟩ "u" (some "M")).1 = "(M - 404) Unknown Error: No detail (url: u)" ∧
    (analyze_http_error ⟨404, some (.obj [("errors", .arr []), ("message", .str "boom")]),
      "raw"⟩ "u" (some "M")).1 ≠ "(M - 404) boom (url: u)" ∧
    (http_with_retry (fun _ => .resp ⟨300, none, ""⟩) "u" none {}).st.error =
      some "HTTP error (300) not specifically handled." ∧
    containsSubstr "HTTP error (300) not specifically handled." "u" = false := by
  refine ⟨?_, ?_, ?_, ?_⟩
  · rfl
  · decide
  · rfl
  · decide

/-- Witness for C6 (amended) on a body with only a `message` field. -/
theorem error_message_construction_rules_check :
    (analyze_http_error ⟨500, some (.obj [("message", .str "oops")]), ""⟩ "u" none).1 =
      "(Unknown - 500) oops (url: u)" := by
  have h := (error_message_construction_rules "u" none).2.2.1
    ⟨500, some (.obj [("message", .str "oops")]), ""⟩ [("message", .str "oops")]
    (.str "oops") rfl rfl rfl
  rw [h]
  rfl

/-- Equality test against the string value `OFF`, as a proposition. -/
theorem json_beq_str_off (j : Json) : Json.beq j (.str "OFF") = true ↔ j = .str "OFF" := by
  cases j <;> simp [Json.beq]

/-- The Python comparison of a stored state value with `OFF` succeeds exactly on
a stored string value `OFF`. -/
theorem mower_state_beq_off (o : Option Json) :
    (o == some (Json.str "OFF")) = true ↔ o = some (Json.str "OFF") := by
  cases o with
  | none =>
    constructor
    · intro h
      exact absurd h (by decide)
    · intro h
      exact absurd h (by simp)
  | some j =>
    have hb : (some j == some (Json.str "OFF")) = Json.beq j (.str "OFF") := rfl
    rw [hb, json_beq_str_off]
    simp

/-- C8: `are_all_mowers_off` returns `True` exactly when every stored mower
has state value `OFF`; in particular it returns `True` on the empty mower
list. -/
theorem are_all_mowers_off_iff (ms : List Mower) :
    (are_all_mowers_off ms = true ↔ ∀ m ∈ ms, m.state = some (Json.str "OFF")) ∧
    are_all_mowers_off ([] : List Mower) = true := by
  constructor
  · unfold are_all_mowers_off
    rw [List.all_eq_true]
    constructor
    · intro h m hm
      exact (mower_state_beq_off m.state).mp (h m hm)
    · intro h m hm
      exact (mower_state_beq_off m.state).mpr (h m hm)
  · rfl

/-- Witness for C8 at a one-element list with state `OFF`. -/
theorem are_all_mowers_off_iff_check :
    are_all_mowers_off [{ state := some (Json.str "OFF") }] = true :=
  (are_all_mowers_off_iff [{ state := some (Json.str "OFF") }]).1.mpr
    (by intro m hm; simp at hm; rw [hm])

/-- C9: `ErrorCodes.get_description` is total: `None` maps to `None`, a code
in the table maps to its description, and any other code maps to the
`Unknown error code` fallback string. -/
theorem get_description_total :
    ErrorCodes.get_description none = none ∧
    (∀ c d, ErrorCodes.CODES.lookup c = some d →
      ErrorCodes.get_description (some c) = some d) ∧
    (∀ c, ErrorCodes.CODES.lookup c = none →
      ErrorCodes.get_description (some c) =
        some ("Unknown error code: " ++ toString c)) := by
  refine ⟨rfl, ?_, ?_⟩
  · intro c d h
    simp [ErrorCodes.get_description, h]
  · intro c h
    simp [ErrorCodes.get_description, h]

/-- Witness for C9 at a known code, an unknown code, and `None`. -/
theorem get_description_total_check :
    ErrorCodes.get_description (some 9) = some "Trapped" ∧
    ErrorCodes.get_description (some 999) = some "Unknown error code: 999" ∧
    ErrorCodes.get_description none = none :=
  ⟨get_description_total.2.1 9 "Trapped" rfl,
   get_description_total.2.2 999 rfl,
   get_description_total.1⟩

/-- C1: on a successful acquisition at instant `now` the stored effective
expiry is `now + expires_in - TOKEN_REFRESH_MARGIN`; the token check (run
first by every public operation) reuses the stored token exactly when `now`
is not strictly past that stored expiry, and performs a full re-acquisition
exactly when it is. -/
theorem token_renewal_margin_policy (st : ApiState) (env : Nat → AttemptResult) (now : Int) :
    (∀ r e, (http_with_retry env TOKEN_REQUEST none st).value = some r →
      truthy r = true → jsonGet r "expires_in" = some (.num e) →
      (get_access_token now env st).1 = true ∧
      (get_access_token now env st).2.access_token = some r ∧
      (get_access_token now env st).2.access_token_expiration =
        now + e - TOKEN_REFRESH_MARGIN) ∧
    (¬ now > st.access_token_expiration →
      check_access_token_and_renew now env st = (true, { st with authenticated := true })) ∧
    (now > st.access_token_expiration →
      check_access_token_and_renew now env st =
        ((get_access_token now env st).1,
         { (get_access_token now env st).2 with
             authenticated := (get_access_token now env st).1 })) := by
  refine ⟨?_, ?_, ?_⟩
  · intro r e hv ht he
    refine ⟨?_, ?_, ?_⟩ <;>
      simp [get_access_token, hv, ht, expires_in_value, he]
  · intro h
    simp [check_access_token_and_renew, h]
  · intro h
    simp [check_access_token_and_renew, h]

/-- Witness for C1: a token issued at 0 with `expires_in = 3600` stores
expiry 3000; a check at 2999 reuses it and a check at 3001 re-acquires. -/
theorem token_renewal_margin_policy_check :
    (get_access_token 0
        (fun _ => .resp ⟨200, some (.obj [("access_token", .str "abc"),
          ("token_type", .str "Bearer"), ("expires_in", .num 3600),
          ("provider", .str "husq")]), "t"⟩) {}).2.access_token_expiration = 3000 ∧
    check_access_token_and_renew 2999
        (fun _ => .resp ⟨200, some (.obj [("access_token", .str "abc"),
          ("token_type", .str "Bearer"), ("expires_in", .num 3600),
          ("provider", .str "husq")]), "t"⟩)
        { access_token_expiration := 3000 } =
      (true, { access_token_expiration := 3000, authenticated := true }) ∧
    check_access_token_and_renew 3001
        (fun _ => .resp ⟨200, some (.obj [("access_token", .str "abc"),
          ("token_type", .str "Bearer"), ("expires_in", .num 3600),
          ("provider", .str "husq")]), "t"⟩)
        { access_token_expiration := 3000 } =
      ((get_access_token 3001
          (fun _ => .resp ⟨200, some (.obj [("access_token", .str "abc"),
            ("token_type", .str "Bearer"), ("expires_in", .num 3600),
            ("provider", .str "husq")]), "t"⟩)
          { access_token_expiration := 3000 }).1,
       { (get_access_token 3001
            (fun _ => .resp ⟨200, some (.obj [("access_token", .str "abc"),
              ("token_type", .str "Bearer"), ("expires_in", .num 3600),
              ("provider", .str "husq")]), "t"⟩)
            { access_token_expiration := 3000 }).2 with
           authenticated := (get_access_token 3001
              (fun _ => .resp ⟨200, some (.obj [("access_token", .str "abc"),
                ("token_type", .str "Bearer"), ("expires_in", .num 3600),
                ("provider", .str "husq")]), "t"⟩)
              { access_token_expiration := 3000 }).1 }) := by
  refine ⟨?_, ?_, ?_⟩
  · have h := (token_renewal_margin_policy {}
      (fun _ => .resp ⟨200, some (.obj [("access_token", .str "abc"),
        ("token_type", .str "Bearer"), ("expires_in", .num 3600),
        ("provider", .str "husq")]), "t"⟩) 0).1
      (.obj [("access_token", .str "abc"), ("token_type", .str "Bearer"),
        ("expires_in", .num 3600), ("provider", .str "husq")]) 3600 rfl rfl rfl
    rw [h.2.2]
    norm_num [TOKEN_REFRESH_MARGIN]
  · exact (token_renewal_margin_policy { access_token_expiration := 3000 }
      (fun _ => .resp ⟨200, some (.obj [("access_token", .str "abc"),
        ("token_type", .str "Bearer"), ("expires_in", .num 3600),
        ("provider", .str "husq")]), "t"⟩) 2999).2.1 (by decide)
  · exact (token_renewal_margin_policy { access_token_expiration := 3000 }
      (fun _ => .resp ⟨200, some (.obj [("access_token", .str "abc"),
        ("token_type", .str "Bearer"), ("expires_in", .num 3600),
        ("provider", .str "husq")]), "t"⟩) 3001).2.2 (by decide)

/-- A failed token check leaves the `bad_auth_message` stored. -/
theorem check_false_error (now : Int) (env : Nat → AttemptResult) (st : ApiState) :
    (check_access_token_and_renew now env st).1 = false →
    (check_access_token_and_renew now env st).2.error = some bad_auth_message := by
  unfold check_access_token_and_renew
  by_cases h : now > st.access_token_expiration
  · rw [if_pos h]
    unfold get_access_token
    rcases hv : (http_with_retry env TOKEN_REQUEST none st).value with _ | r
    · intro
      simp [hv]
    · cases ht : truthy r
      · intro
        simp [hv, ht]
      · intro hfalse
        simp [hv, ht] at hfalse
  · rw [if_neg h]
    intro hfalse
    exact absurd hfalse (by simp)

/-- Error state after `get_mower_messages`: success clears it, an HTTP or
token failure stores a non-empty message, and a failed mower-name lookup
leaves the error of the preceding token check in place. -/
theorem get_mower_messages_error_cases (now : Int)
    (tokenEnv msgEnv : Nat → AttemptResult) (cs : ClientState) (name : String) :
    ((get_mower_messages now tokenEnv msgEnv cs name).1.isSome = true →
      get_http_error (get_mower_messages now tokenEnv msgEnv cs name).2 = none) ∧
    ((check_access_token_and_renew now tokenEnv cs.state).1 = false →
      ∃ m, get_http_error (get_mower_messages now tokenEnv msgEnv cs name).2 = some m ∧
        m ≠ "") ∧
    ((check_access_token_and_renew now tokenEnv cs.state).1 = true →
      id_lookup_truthy cs.mowers name = true →
      (get_mower_messages now tokenEnv msgEnv cs name).1 = none →
      ∃ m, get_http_error (get_mower_messages now tokenEnv msgEnv cs name).2 = some m ∧
        m ≠ "") ∧
    ((check_access_token_and_renew now tokenEnv cs.state).1 = true →
      id_lookup_truthy cs.mowers name = false →
      (get_mower_messages now tokenEnv msgEnv cs name).1 = none ∧
      get_http_error (get_mower_messages now tokenEnv msgEnv cs name).2 =
        (check_access_token_and_renew now tokenEnv cs.state).2.error) := by
  by_cases hck : (check_access_token_and_renew now tokenEnv cs.state).1 = false
  · refine ⟨?_, ?_, ?_, ?_⟩
    · intro h
      simp [get_mower_messages, hck] at h
    · intro _
      refine ⟨bad_auth_message, ?_, by decide⟩
      simp [get_mower_messages, hck, get_http_error]
      exact check_false_error now tokenEnv cs.state hck
    · intro htrue
      rw [htrue] at hck
      exact absurd hck (by simp)
    · intro htrue
      rw [htrue] at hck
      exact absurd hck (by simp)
  · have hck' : (check_access_token_and_renew now tokenEnv cs.state).1 = true := by
      revert hck
      cases (check_access_token_and_renew now tokenEnv cs.state).1 <;> simp
    rcases hfind : find_id_from_name cs.mowers name with _ | mid
    · refine ⟨?_, ?_, ?_, ?_⟩
      · intro h
        simp [get_mower_messages, hck', hfind] at h
      · intro hfalse
        rw [hck'] at hfalse
        exact absurd hfalse (by simp)
      · intro _ hid
        simp [id_lookup_truthy, hfind] at hid
      · intro _ _
        constructor
        · simp [get_mower_messages, hck', hfind]
        · simp [get_mower_messages, hck', hfind, get_http_error]
    · cases htr : truthy mid
      · refine ⟨?_, ?_, ?_, ?_⟩
        · intro h
          simp [get_mower_messages, hck', hfind, htr] at h
        · intro hfalse
          rw [hck'] at hfalse
          exact absurd hfalse (by simp)
        · intro _ hid
          simp [id_lookup_truthy, hfind, htr] at hid
        · intro _ _
          constructor
          · simp [get_mower_messages, hck', hfind, htr]
          · simp [get_mower_messages, hck', hfind, htr, get_http_error]
      · refine ⟨?_, ?_, ?_, ?_⟩
        · intro h
          simp only [get_mower_messages, hck', hfind, htr, if_neg (by simp : ¬(true = false))]
            at h ⊢
          rcases hv : (http_with_retry msgEnv
              (MOWERS ++ "/" ++ pyStr mid ++ "/messages") (some name)
              { cs with state := (check_access_token_and_renew now tokenEnv cs.state).2
              }.state).value with _ | j
          · rw [hv] at h
            exact absurd h (by simp)
          · exact (http_with_retry_some_clears msgEnv _ _ _ j hv).1
        · intro hfalse
          rw [hck'] at hfalse
          exact absurd hfalse (by simp)
        · intro _ _ hnone
          simp only [get_mower_messages, hck', hfind, htr,
            if_neg (by simp : ¬(true = false))] at hnone ⊢
          exact http_with_retry_none_error msgEnv _ _ _ hnone
        · intro _ hid
          simp [id_lookup_truthy, hfind, htr] at hid

/-- In every non-raising outcome of `_get_mowers`, the resulting error slot
is the one the retry core left; and a `True` outcome means the request
delivered a (truthy) JSON payload. -/
theorem get_mowers_inner_cases (env : Nat → AttemptResult) (cs : ClientState)
    (b : Bool) (cs2 : ClientState) (h : get_mowers_inner env cs = .ok (b, cs2)) :
    cs2.state.error = (http_with_retry env MOWERS none cs.state).st.error ∧
    (b = true → ∃ j, (http_with_retry env MOWERS none cs.state).value = some j) := by
  unfold get_mowers_inner at h
  rcases hv : (http_with_retry env MOWERS none cs.state).value with _ | j
  · simp only [hv, PyResult.ok.injEq, Prod.mk.injEq] at h
    refine ⟨by rw [← h.2], ?_⟩
    intro hb
    rw [← h.1] at hb
    exact absurd hb (by simp)
  · cases htr : truthy j
    · simp only [hv, htr, Bool.false_eq_true, if_false, PyResult.ok.injEq,
        Prod.mk.injEq] at h
      refine ⟨by rw [← h.2], ?_⟩
      intro hb
      rw [← h.1] at hb
      exact absurd hb (by simp)
    · cases hp : parse_mower_list j
      · simp only [hv, htr, if_true, hp, PyResult.ok.injEq, Prod.mk.injEq] at h
        refine ⟨by rw [← h.2], fun _ => ⟨j, rfl⟩⟩
      · simp only [hv, htr, if_true, hp, PyResult.ok.injEq, Prod.mk.injEq] at h
        refine ⟨by rw [← h.2], ?_⟩
        intro hb
        rw [← h.1] at hb
        exact absurd hb (by simp)
      · simp only [hv, htr, if_true, hp] at h
        exact absurd h (by simp)

/-- `_get_mowers` when the retry core returned `None`: `False`, state as the
core left it. -/
theorem get_mowers_inner_value_none (env : Nat → AttemptResult) (cs : ClientState)
    (hv : (http_with_retry env MOWERS none cs.state).value = none) :
    get_mowers_inner env cs =
      .ok (false, { cs with state := (http_with_retry env MOWERS none cs.state).st }) := by
  unfold get_mowers_inner
  simp [hv]

/-- `_get_mowers` when the retry core delivered a payload that is falsy, or
whose `data` iteration raises a caught `TypeError`: `False`, with the state
the (successful) retry core left. -/
theorem get_mowers_inner_falsy_or_caught (env : Nat → AttemptResult) (cs : ClientState)
    (j : Json) (hj : (http_with_retry env MOWERS none cs.state).value = some j)
    (hd : truthy j = false ∨ parse_mower_list j = .caught) :
    get_mowers_inner env cs =
      .ok (false, { cs with state := (http_with_retry env MOWERS none cs.state).st }) := by
  unfold get_mowers_inner
  rcases hd with htr | hp
  · simp [hj, htr]
  · cases htr : truthy j <;> simp [hj, htr, hp]

/-- Dispatch of `get_mowers` on a successful token check and a `True` inner
result. -/
theorem get_mowers_dispatch_ok_true (now now2 : Int)
    (tokenEnv listEnv : Nat → AttemptResult) (cs : ClientState) (cs2 : ClientState)
    (hck : (check_access_token_and_renew now tokenEnv cs.state).1 = true)
    (hi : get_mowers_inner listEnv
      { cs with state := (check_access_token_and_renew now tokenEnv cs.state).2 } =
        .ok (true, cs2)) :
    get_mowers now tokenEnv listEnv now2 cs =
      .ok (true, { cs2 with state :=
        { cs2.state with timestamp_last_update_mower_list := now2 } }) := by
  unfold get_mowers
  simp [hck, hi]

/-- Dispatch of `get_mowers` on a successful token check and a `False` inner
result. -/
theorem get_mowers_dispatch_ok_false (now now2 : Int)
    (tokenEnv listEnv : Nat → AttemptResult) (cs : ClientState) (cs2 : ClientState)
    (hck : (check_access_token_and_renew now tokenEnv cs.state).1 = true)
    (hi : get_mowers_inner listEnv
      { cs with state := (check_access_token_and_renew now tokenEnv cs.state).2 } =
        .ok (false, cs2)) :
    get_mowers now tokenEnv listEnv now2 cs = .ok (false, cs2) := by
  unfold get_mowers
  simp [hck, hi]

/-- Dispatch of `get_mowers` on a raising inner result. -/
theorem get_mowers_dispatch_raised (now now2 : Int)
    (tokenEnv listEnv : Nat → AttemptResult) (cs : ClientState) (e : String)
    (hck : (check_access_token_and_renew now tokenEnv cs.state).1 = true)
    (hi : get_mowers_inner listEnv
      { cs with state := (check_access_token_and_renew now tokenEnv cs.state).2 } =
        .raised e) :
    get_mowers now tokenEnv listEnv now2 cs = .raised e := by
  unfold get_mowers
  simp [hck, hi]

/-- Dispatch of `get_mowers` on a failed token check. -/
theorem get_mowers_dispatch_check_false (now now2 : Int)
    (tokenEnv listEnv : Nat → AttemptResult) (cs : ClientState)
    (hck : (check_access_token_and_renew now tokenEnv cs.state).1 = false) :
    get_mowers now tokenEnv listEnv now2 cs =
      .ok (false, { cs with state :=
        (check_access_token_and_renew now tokenEnv cs.state).2 }) := by
  unfold get_mowers
  simp [hck]

/-- Error state after `get_mowers`: success clears it; a failed token
renewal or a request that the retry core failed stores a non-empty message;
but a `False` return caused by a falsy 2xx payload or a caught mower-list
parse error leaves the error as the successful exchange left it — `None`. -/
theorem get_mowers_error_cases (now now2 : Int) (tokenEnv listEnv : Nat → AttemptResult)
    (cs : ClientState) :
    (py_result_flag (get_mowers now tokenEnv listEnv now2 cs) = some true →
      py_result_error (get_mowers now tokenEnv listEnv now2 cs) = some none) ∧
    ((check_access_token_and_renew now tokenEnv cs.state).1 = false →
      py_result_error (get_mowers now tokenEnv listEnv now2 cs) =
        some (some bad_auth_message) ∧ bad_auth_message ≠ "") ∧
    ((check_access_token_and_renew now tokenEnv cs.state).1 = true →
      (http_with_retry listEnv MOWERS none
        (check_access_token_and_renew now tokenEnv cs.state).2).value = none →
      ∃ m, py_result_error (get_mowers now tokenEnv listEnv now2 cs) = some (some m) ∧
        m ≠ "") ∧
    ((check_access_token_and_renew now tokenEnv cs.state).1 = true →
      ∀ j, (http_with_retry listEnv MOWERS none
        (check_access_token_and_renew now tokenEnv cs.state).2).value = some j →
      truthy j = false ∨ parse_mower_list j = .caught →
      py_result_flag (get_mowers now tokenEnv listEnv now2 cs) = some false ∧
      py_result_error (get_mowers now tokenEnv listEnv now2 cs) = some none) := by
  refine ⟨?_, ?_, ?_, ?_⟩
  · intro hflag
    by_cases hck : (check_access_token_and_renew now tokenEnv cs.state).1 = true
    · rcases hi : get_mowers_inner listEnv
          { cs with state := (check_access_token_and_renew now tokenEnv cs.state).2 } with
        ⟨b2, cs2⟩ | e
      · cases b2
        · rw [get_mowers_dispatch_ok_false now now2 tokenEnv listEnv cs cs2 hck hi]
            at hflag
          simp [py_result_flag] at hflag
        · obtain ⟨herr, hex⟩ := get_mowers_inner_cases listEnv _ true cs2 hi
          obtain ⟨j, hj⟩ := hex rfl
          have hnone := (http_with_retry_some_clears listEnv MOWERS none _ j hj).1
          rw [get_mowers_dispatch_ok_true now now2 tokenEnv listEnv cs cs2 hck hi]
          simp only [py_result_error, get_http_error, Option.some.injEq]
          exact herr.trans hnone
      · rw [get_mowers_dispatch_raised now now2 tokenEnv listEnv cs e hck hi] at hflag
        simp [py_result_flag] at hflag
    · have hckf : (check_access_token_and_renew now tokenEnv cs.state).1 = false := by
        revert hck
        cases (check_access_token_and_renew now tokenEnv cs.state).1 <;> simp
      rw [get_mowers_dispatch_check_false now now2 tokenEnv listEnv cs hckf] at hflag
      simp [py_result_flag] at hflag
  · intro hckf
    rw [get_mowers_dispatch_check_false now now2 tokenEnv listEnv cs hckf]
    simp only [py_result_error, get_http_error, Option.some.injEq]
    exact ⟨check_false_error now tokenEnv cs.state hckf, by decide⟩
  · intro hck hv
    have hi := get_mowers_inner_value_none listEnv
      { cs with state := (check_access_token_and_renew now tokenEnv cs.state).2 } hv
    rw [get_mowers_dispatch_ok_false now now2 tokenEnv listEnv cs _ hck hi]
    obtain ⟨m, hm, hmne⟩ := http_with_retry_none_error listEnv MOWERS none
      (check_access_token_and_renew now tokenEnv cs.state).2 hv
    refine ⟨m, ?_, hmne⟩
    simp only [py_result_error, get_http_error, Option.some.injEq]
    exact hm
  · intro hck j hj hd
    have hi := get_mowers_inner_falsy_or_caught listEnv
      { cs with state := (check_access_token_and_renew now tokenEnv cs.state).2 } j hj hd
    rw [get_mowers_dispatch_ok_false now now2 tokenEnv listEnv cs _ hck hi]
    have hnone := (http_with_retry_some_clears listEnv MOWERS none
      (check_access_token_and_renew now tokenEnv cs.state).2 j hj).1
    refine ⟨rfl, ?_⟩
    simp only [py_result_error, get_http_error, Option.some.injEq]
    exact hnone

/-- C7 (amended): for the modelled public operations, a successful call
leaves the stored error cleared, and a failed call stores a non-empty error
message when the failure is reported by the token or retry layer itself
(failed renewal, or a request the retry core failed); but a failed call
that never reaches the HTTP layer (mower name not found) leaves the
previous — possibly cleared — error in place, and a call that fails after a
successful 2xx exchange (falsy response body, or a caught mower-list parse
error) leaves the error cleared to `None`, so the caller may read no
message right after a failed operation. -/
theorem last_error_after_public_ops (now now2 : Int)
    (tokenEnv msgEnv listEnv : Nat → AttemptResult) (cs : ClientState) (name : String) :
    (((get_mower_messages now tokenEnv msgEnv cs name).1.isSome = true →
      get_http_error (get_mower_messages now tokenEnv msgEnv cs name).2 = none) ∧
    ((check_access_token_and_renew now tokenEnv cs.state).1 = false →
      ∃ m, get_http_error (get_mower_messages now tokenEnv msgEnv cs name).2 = some m ∧
        m ≠ "") ∧
    ((check_access_token_and_renew now tokenEnv cs.state).1 = true →
      id_lookup_truthy cs.mowers name = true →
      (get_mower_messages now tokenEnv msgEnv cs name).1 = none →
      ∃ m, get_http_error (get_mower_messages now tokenEnv msgEnv cs name).2 = some m ∧
        m ≠ "") ∧
    ((check_access_token_and_renew now tokenEnv cs.state).1 = true →
      id_lookup_truthy cs.mowers name = false →
      (get_mower_messages now tokenEnv msgEnv cs name).1 = none ∧
      get_http_error (get_mower_messages now tokenEnv msgEnv cs name).2 =
        (check_access_token_and_renew now tokenEnv cs.state).2.error)) ∧
    ((py_result_flag (get_mowers now tokenEnv listEnv now2 cs) = some true →
      py_result_error (get_mowers now tokenEnv listEnv now2 cs) = some none) ∧
    ((check_access_token_and_renew now tokenEnv cs.state).1 = false →
      py_result_error (get_mowers now tokenEnv listEnv now2 cs) =
        some (some bad_auth_message) ∧ bad_auth_message ≠ "") ∧
    ((check_access_token_and_renew now tokenEnv cs.state).1 = true →
      (http_with_retry listEnv MOWERS none
        (check_access_token_and_renew now tokenEnv cs.state).2).value = none →
      ∃ m, py_result_error (get_mowers now tokenEnv listEnv now2 cs) = some (some m) ∧
        m ≠ "") ∧
    ((check_access_token_and_renew now tokenEnv cs.state).1 = true →
      ∀ j, (http_with_retry listEnv MOWERS none
        (check_access_token_and_renew now tokenEnv cs.state).2).value = some j →
      truthy j = false ∨ parse_mower_list j = .caught →
      py_result_flag (get_mowers now tokenEnv listEnv now2 cs) = some false ∧
      py_result_error (get_mowers now tokenEnv listEnv now2 cs) = some none)) :=
  ⟨get_mower_messages_error_cases now tokenEnv msgEnv cs name,
   get_mowers_error_cases now now2 tokenEnv listEnv cs⟩

/-- Counterexample for C7 as stated: with a valid token and an empty mower
list, `get_mower_messages` fails (returns `None`) with the stored error
still cleared; and `get_mowers` against a 2xx response whose body is the
JSON object with `data` equal to the number 5 performs an HTTP request,
fails through the caught `TypeError`, and also leaves the error `None`. -/
theorem failed_call_with_cleared_error :
    (get_mower_messages 0 (fun _ => .netErr "e") (fun _ => .netErr "e")
      { mowers := [], state := {} } "X").1 = none ∧
    get_http_error (get_mower_messages 0 (fun _ => .netErr "e") (fun _ => .netErr "e")
      { mowers := [], state := {} } "X").2 = none ∧
    py_result_flag (get_mowers 0 (fun _ => .netErr "e")
      (fun _ => .resp ⟨200, some (.obj [("data", .num 5)]), "ok"⟩) 99
      { mowers := [], state := {} }) = some false ∧
    py_result_error (get_mowers 0 (fun _ => .netErr "e")
      (fun _ => .resp ⟨200, some (.obj [("data", .num 5)]), "ok"⟩) 99
      { mowers := [], state := {} }) = some none := by
  refine ⟨?_, ?_, ?_, ?_⟩ <;> rfl

/-- Witness for C7 (amended): a found mower whose messages request ends in
a 404 leaves a non-empty message, and so does a mower-list request that
ends in a 404. -/
theorem last_error_after_public_ops_check :
    (∃ m, get_http_error (get_mower_messages 0 (fun _ => .netErr "e")
      (fun _ => .resp ⟨404, none, "nf"⟩)
      { mowers := [{ id := some (.str "m1"), name := some (.str "X") }], state := {} }
      "X").2 = some m ∧ m ≠ "") ∧
    (∃ m, py_result_error (get_mowers 0 (fun _ => .netErr "e")
      (fun _ => .resp ⟨404, none, "nf"⟩) 99
      { mowers := [{ id := some (.str "m1"), name := some (.str "X") }], state := {} }) =
        some (some m) ∧ m ≠ "") :=
  ⟨(last_error_after_public_ops 0 99 (fun _ => .netErr "e")
      (fun _ => .resp ⟨404, none, "nf"⟩) (fun _ => .resp ⟨404, none, "nf"⟩)
      { mowers := [{ id := some (.str "m1"), name := some (.str "X") }], state := {} }
      "X").1.2.2.1 rfl rfl rfl,
   (last_error_after_public_ops 0 99 (fun _ => .netErr "e")
      (fun _ => .resp ⟨404, none, "nf"⟩) (fun _ => .resp ⟨404, none, "nf"⟩)
      { mowers := [{ id := some (.str "m1"), name := some (.str "X") }], state := {} }
      "X").2.2.2.1 rfl rfl⟩

/-- `_get_access_token` never touches the mower-list timestamp. -/
theorem get_access_token_timestamp (now : Int) (env : Nat → AttemptResult) (st : ApiState) :
    (get_access_token now env st).2.timestamp_last_update_mower_list =
      st.timestamp_last_update_mower_list := by
  have hf := (http_with_retry_frame env TOKEN_REQUEST none st).2.2.1
  unfold get_access_token
  rcases hv : (http_with_retry env TOKEN_REQUEST none st).value with _ | r
  · simpa [hv] using hf
  · cases ht : truthy r
    · simpa [hv, ht] using hf
    · simpa [hv, ht] using hf

/-- `_check_access_token_and_renew` never touches the mower-list
timestamp. -/
theorem check_renew_timestamp (now : Int) (env : Nat → AttemptResult) (st : ApiState) :
    (check_access_token_and_renew now env st).2.timestamp_last_update_mower_list =
      st.timestamp_last_update_mower_list := by
  unfold check_access_token_and_renew
  by_cases h : now > st.access_token_expiration
  · rw [if_pos h]
    simpa using get_access_token_timestamp now env st
  · rw [if_neg h]

/-- `_get_mowers` never touches the mower-list timestamp. -/
theorem get_mowers_inner_timestamp (env : Nat → AttemptResult) (cs : ClientState)
    (b : Bool) (cs2 : ClientState) (h : get_mowers_inner env cs = .ok (b, cs2)) :
    cs2.state.timestamp_last_update_mower_list =
      cs.state.timestamp_last_update_mower_list := by
  have hf := (http_with_retry_frame env MOWERS none cs.state).2.2.1
  unfold get_mowers_inner at h
  rcases hv : (http_with_retry env MOWERS none cs.state).value with _ | j
  · simp only [hv, PyResult.ok.injEq, Prod.mk.injEq] at h
    rw [← h.2]
    exact hf
  · cases htr : truthy j
    · simp only [hv, htr, Bool.false_eq_true, if_false, PyResult.ok.injEq,
        Prod.mk.injEq] at h
      rw [← h.2]
      exact hf
    · cases hp : parse_mower_list j
      · simp only [hv, htr, if_true, hp, PyResult.ok.injEq, Prod.mk.injEq] at h
        rw [← h.2]
        exact hf
      · simp only [hv, htr, if_true, hp, PyResult.ok.injEq, Prod.mk.injEq] at h
        rw [← h.2]
        exact hf
      · simp only [hv, htr, if_true, hp] at h
        exact absurd h (by simp)

/-- C10: when `get_mowers` returns `False` — the token renewal or the list
request or its parsing failed — the timestamp returned by
`get_timestamp_last_update_mower_list` is unchanged. -/
theorem get_mowers_timestamp_frame (now now2 : Int) (tokenEnv listEnv : Nat → AttemptResult)
    (cs cs' : ClientState)
    (h : get_mowers now tokenEnv listEnv now2 cs = .ok (false, cs')) :
    get_timestamp_last_update_mower_list cs' = get_timestamp_last_update_mower_list cs := by
  unfold get_mowers at h
  unfold get_timestamp_last_update_mower_list
  by_cases hck : (check_access_token_and_renew now tokenEnv cs.state).1 = true
  · simp only [hck, if_true] at h
    rcases hi : get_mowers_inner listEnv
        { cs with state := (check_access_token_and_renew now tokenEnv cs.state).2 } with
      ⟨b, cs2⟩ | e
    · rw [hi] at h
      cases b
      · simp only [PyResult.ok.injEq, Prod.mk.injEq] at h
        rw [← h.2]
        rw [get_mowers_inner_timestamp listEnv _ false cs2 hi]
        exact check_renew_timestamp now tokenEnv cs.state
      · exact absurd h (by simp)
    · rw [hi] at h
      exact absurd h (by simp)
  · have hckf : (check_access_token_and_renew now tokenEnv cs.state).1 = false := by
      revert hck
      cases (check_access_token_and_renew now tokenEnv cs.state).1 <;> simp
    simp only [hckf, Bool.false_eq_true, if_false, PyResult.ok.injEq, Prod.mk.injEq] at h
    rw [← h.2]
    exact check_renew_timestamp now tokenEnv cs.state

/-- Witness for C10: a failing list request (404) leaves the timestamp 7 in
place although `now2 = 99` was available. -/
theorem get_mowers_timestamp_frame_check :
    ∃ cs', get_mowers 0 (fun _ => .netErr "e") (fun _ => .resp ⟨404, none, "nf"⟩) 99
      { mowers := [], state := { timestamp_last_update_mower_list := 7 } } =
        .ok (false, cs') ∧
      get_timestamp_last_update_mower_list cs' = 7 := by
  refine ⟨_, rfl, ?_⟩
  exact get_mowers_timestamp_frame 0 99 (fun _ => .netErr "e")
    (fun _ => .resp ⟨404, none, "nf"⟩)
    { mowers := [], state := { timestamp_last_update_mower_list := 7 } } _ rfl
